import Mathlib

/-!
Shallow embedding of the Gravis UltraSound (GUS) emulation core from
`src/hardware/gus.cpp`, together with theorems checking the repository's
specification against it.

Conventions of the embedding:
* machine integers are `Nat` with explicit reductions (`% 2^32` for
  `uint32_t`, `% 256` for `uint8_t`, ...); signed 32-bit intermediates
  (`int32_t WaveLeft`) are `Int` obtained from the wrapped unsigned value;
* the audio path (`float` in the source) is modelled over `ℚ` with exact
  rational arithmetic; the logarithmic volume table and the constant-power
  pan table, which the source fills with `double` powers and `cos`/`sin`
  values at start-up, are passed to the generator as parameters
  `vol : ℕ → ℚ` and `pan : ℕ → ℚ × ℚ`;
* `GUSRam` is a total function `ℕ → ℕ`; the C++ array has 2^20 cells, so
  reads at addresses ≥ 2^20 model the out-of-bounds reads the C++ would
  perform there;
* external collaborators (PIC, DMA controller, downstream mixer, event
  scheduler) are out of scope exactly as in the specification; calls to
  them (`PIC_ActivateIRQ`, `SetFreq`, `Enable`, `PIC_AddEvent`,
  `Register_Callback`, logging) do not touch the modelled state.
-/

namespace Gus

/-- `uint32_t` wraparound. -/
def u32 (n : ℕ) : ℕ := n % 4294967296

/-- Conversion of a `uint32_t` bit pattern to `int32_t` (two's complement),
as in `int32_t WaveLeft = WaveStart - WaveAddr`. -/
def i32ofU32 (n : ℕ) : ℤ :=
  if n % 4294967296 < 2147483648 then ((n % 4294967296 : ℕ) : ℤ)
  else ((n % 4294967296 : ℕ) : ℤ) - 4294967296

/-- `static_cast<int8_t>` of a memory byte, as used by the samplers. -/
def int8val (b : ℕ) : ℤ :=
  if b % 256 < 128 then ((b % 256 : ℕ) : ℤ) else ((b % 256 : ℕ) : ℤ) - 256

/-- `static_cast<int16_t>` style truncation toward zero of a rational,
modelling the float-to-integer conversions in `SoftLimit`/`GUS_CallBack`. -/
def ratTrunc (q : ℚ) : ℤ := if 0 ≤ q then ⌊q⌋ else ⌈q⌉

/-- Modelled from the spec: `ceil_udivide` comes from the repository's
support header, which is not under `src/`; per the spec it is unsigned
ceiling division (`wave_add = ceil(freq/2)`, `ramp_incr = ceil(scale/divider)`). -/
def ceil_udivide (a b : ℕ) : ℕ := (a + b - 1) / b

/-- Modelled from the spec: `clamp` comes from the repository's support
header (newer standard library), clamping a value into `[lo, hi]`. -/
def clampNat (x lo hi : ℕ) : ℕ := min hi (max lo x)

/-- Per-voice state of `class GUSChannels`.  The member function pointers
`getSample`/`generated_ms` are represented by the flag `is16bit`, which
`WriteWaveCtrl` keeps equal to bit 2 of the stored control byte. -/
structure Voice where
  WaveStart : ℕ := 0
  WaveEnd : ℕ := 0
  WaveAddr : ℕ := 0
  WaveAdd : ℕ := 0
  WaveCtrl : ℕ := 3
  WaveFreq : ℕ := 0
  StartVolIndex : ℕ := 0
  EndVolIndex : ℕ := 0
  CurrentVolIndex : ℕ := 0
  IncrVolIndex : ℕ := 0
  RampRate : ℕ := 0
  RampCtrl : ℕ := 3
  PanPot : ℕ := 7
  channum : ℕ := 0
  is16bit : Bool := false
  generated_8bit_ms : ℕ := 0
  generated_16bit_ms : ℕ := 0
  deriving Repr, DecidableEq

/-- `GUSChannels(uint8_t num)` constructor. -/
def mkVoice (num : ℕ) : Voice := { channum := num }

/-- `GUSChannels::GetSample8`.  Note: the source wraps only `nextAddr`
with `& (GUS_RAM_SIZE - 1)`; `useAddr` indexes `GUSRam` unwrapped. -/
def GetSample8 (ram : ℕ → ℕ) (v : Voice) : ℚ :=
  let useAddr := v.WaveAddr >>> 9
  let w1 : ℚ := (int8val (ram useAddr) : ℚ)
  let w1 :=
    if v.WaveAdd < 512 then
      let nextAddr := (useAddr + 1) &&& 1048575
      let w2 : ℚ := (int8val (ram nextAddr) : ℚ)
      w1 + (w2 - w1) * (((v.WaveAddr &&& 511 : ℕ) : ℚ) / 512)
    else w1
  w1 * 256

/-- The 8-bit sampler as the specification words it (§4.3): both the
current and the next byte address are wrapped modulo 2^20. -/
def GetSample8_spec (ram : ℕ → ℕ) (v : Voice) : ℚ :=
  let base := v.WaveAddr >>> 9
  let s0 : ℚ := (int8val (ram (base % 1048576)) : ℚ)
  if v.WaveAdd < 512 then
    let s1 : ℚ := (int8val (ram ((base + 1) % 1048576)) : ℚ)
    (s0 + (s1 - s0) * (((v.WaveAddr % 512 : ℕ) : ℚ) / 512)) * 256
  else s0 * 256

/-- `GUSChannels::GetSample16`: banked address layout, little-endian pair;
the next-sample bytes are both fetched through `static_cast<int8_t>` and
recombined with a bitwise or exactly as in the source. -/
def GetSample16 (ram : ℕ → ℕ) (v : Voice) : ℚ :=
  let base := v.WaveAddr >>> 9
  let holdAddr := base &&& 0xc0000
  let useAddr := holdAddr ||| ((base &&& 0x1ffff) <<< 1)
  let w1 : ℚ := ((ram useAddr % 256 + 256 * int8val (ram (useAddr + 1)) : ℤ) : ℚ)
  if v.WaveAdd < 512 then
    let w2 : ℚ :=
      ((Int.lor (int8val (ram (useAddr + 2))) (int8val (ram (useAddr + 3)) * 256) : ℤ) : ℚ)
    w1 + (w2 - w1) * (((v.WaveAddr &&& 511 : ℕ) : ℚ) / 512)
  else w1

/-- `GUSChannels::WriteWaveFreq`. -/
def WriteWaveFreq (val : ℕ) (v : Voice) : Voice :=
  let val := val % 65536
  { v with WaveFreq := val, WaveAdd := ceil_udivide val 2 }

/-- `GUSChannels::WriteRampRate`; `divider` is a `uint8_t`, so the shift
by `3 * (rate >> 6) = 9` truncates `512` to `0`. -/
def WriteRampRate (val : ℕ) (v : Voice) : Voice :=
  let val := val % 256
  let scale := val &&& 63
  let divider := (1 <<< (3 * (val >>> 6))) % 256
  { v with RampRate := val,
           IncrVolIndex := if scale = 0 ∨ divider = 0 then 0 else ceil_udivide scale divider }

/-- `GUSChannels::WritePanPot` (clamped to 15). -/
def WritePanPot (pos : ℕ) (v : Voice) : Voice :=
  { v with PanPot := min (pos % 256) 15 }

/-- `GUSChannels::ClearStats`. -/
def ClearStats (v : Voice) : Voice :=
  { v with generated_8bit_ms := 0, generated_16bit_ms := 0 }

/-- `GUSChannels::UpdateWaveRamp`. -/
def UpdateWaveRamp (v : Voice) : Voice :=
  WriteRampRate v.RampRate (WriteWaveFreq v.WaveFreq v)

/-- `GUSChannels::WaveUpdate`: phase advance with boundary handling,
returning the updated voice and aggregator `WaveIRQ` bitmap. -/
def WaveUpdate (v : Voice) (waveIRQ : ℕ) : Voice × ℕ :=
  if v.WaveCtrl &&& 3 ≠ 0 then (v, waveIRQ)
  else
    let dec := v.WaveCtrl &&& 0x40 ≠ 0
    let addr := if dec then u32 (v.WaveAddr + 4294967296 - u32 v.WaveAdd)
                else u32 (v.WaveAddr + v.WaveAdd)
    let waveLeft : ℤ :=
      if dec then i32ofU32 (v.WaveStart + 4294967296 - addr)
      else i32ofU32 (addr + 4294967296 - v.WaveEnd)
    if waveLeft < 0 then ({ v with WaveAddr := addr }, waveIRQ)
    else
      let waveIRQ := if v.WaveCtrl &&& 0x20 ≠ 0 then waveIRQ ||| (1 <<< v.channum) else waveIRQ
      if v.RampCtrl &&& 0x04 ≠ 0 then ({ v with WaveAddr := addr }, waveIRQ)
      else if v.WaveCtrl &&& 0x08 ≠ 0 then
        let ctrl := if v.WaveCtrl &&& 0x10 ≠ 0 then v.WaveCtrl ^^^ 0x40 else v.WaveCtrl
        let addr := if ctrl &&& 0x40 ≠ 0 then u32 (v.WaveEnd + 4294967296 - waveLeft.toNat)
                    else u32 (v.WaveStart + waveLeft.toNat)
        ({ v with WaveCtrl := ctrl, WaveAddr := addr }, waveIRQ)
      else
        let ctrl := v.WaveCtrl ||| 1
        let addr := if ctrl &&& 0x40 ≠ 0 then v.WaveStart else v.WaveEnd
        ({ v with WaveCtrl := ctrl, WaveAddr := addr }, waveIRQ)

/-- `GUSChannels::RampUpdate`, returning the updated voice and the
aggregator `RampIRQ` bitmap. -/
def RampUpdate (v : Voice) (rampIRQ : ℕ) : Voice × ℕ :=
  if v.RampCtrl &&& 0x3 ≠ 0 then (v, rampIRQ)
  else
    let dec := v.RampCtrl &&& 0x40 ≠ 0
    let cur := if dec then u32 (v.CurrentVolIndex + 4294967296 - u32 v.IncrVolIndex)
               else u32 (v.CurrentVolIndex + v.IncrVolIndex)
    let remaining : ℤ :=
      if dec then i32ofU32 (v.StartVolIndex + 4294967296 - cur)
      else i32ofU32 (cur + 4294967296 - v.EndVolIndex)
    if remaining < 0 then ({ v with CurrentVolIndex := cur }, rampIRQ)
    else
      let rampIRQ := if v.RampCtrl &&& 0x20 ≠ 0 then rampIRQ ||| (1 <<< v.channum) else rampIRQ
      if v.RampCtrl &&& 0x08 ≠ 0 then
        let ctrl := if v.RampCtrl &&& 0x10 ≠ 0 then v.RampCtrl ^^^ 0x40 else v.RampCtrl
        let cur := if ctrl &&& 0x40 ≠ 0 then u32 (v.EndVolIndex + 4294967296 - remaining.toNat)
                   else u32 (v.StartVolIndex + remaining.toNat)
        ({ v with RampCtrl := ctrl, CurrentVolIndex := cur }, rampIRQ)
      else
        let ctrl := v.RampCtrl ||| 1
        let cur := if ctrl &&& 0x40 ≠ 0 then v.StartVolIndex else v.EndVolIndex
        ({ v with RampCtrl := ctrl, CurrentVolIndex := cur }, rampIRQ)

/-- The pieces of engine state a voice reads and writes while generating:
the voice itself, the running `peak_amplitude` and the two IRQ bitmaps. -/
structure GenSt where
  v : Voice
  pk : ℚ × ℚ
  wIRQ : ℕ
  rIRQ : ℕ
  deriving Repr

/-- One iteration of the loop body of `GUSChannels::generateSamples`:
fetch, scale by volume, pan into the two accumulator slots, track the
peak, then run the phase and ramp updates. -/
def genFrame (vol : ℕ → ℚ) (pan : ℕ → ℚ × ℚ) (ram : ℕ → ℕ) (fr : ℚ × ℚ) (g : GenSt) :
    (ℚ × ℚ) × GenSt :=
  let sample := (if g.v.is16bit then GetSample16 ram g.v else GetSample8 ram g.v) *
                vol g.v.CurrentVolIndex
  let l := fr.1 + sample * (pan g.v.PanPot).1
  let r := fr.2 + sample * (pan g.v.PanPot).2
  let pk := (max g.pk.1 |l|, max g.pk.2 |r|)
  let p := WaveUpdate g.v g.wIRQ
  let q := RampUpdate p.1 g.rIRQ
  ((l, r), { v := q.1, pk := pk, wIRQ := p.2, rIRQ := q.2 })

/-- The `while (len-- > 0)` loop of `generateSamples`, walking the
accumulator frames. -/
def genLoop (vol : ℕ → ℚ) (pan : ℕ → ℚ × ℚ) (ram : ℕ → ℕ) :
    List (ℚ × ℚ) → GenSt → List (ℚ × ℚ) × GenSt
  | [], g => ([], g)
  | fr :: rest, g =>
    let p := genFrame vol pan ram fr g
    let q := genLoop vol pan ram rest p.2
    (p.1 :: q.1, q.2)

/-- The `(*generated_ms)++` at the end of `generateSamples`. -/
def incGenerated (v : Voice) : Voice :=
  if v.is16bit then { v with generated_16bit_ms := v.generated_16bit_ms + 1 }
  else { v with generated_8bit_ms := v.generated_8bit_ms + 1 }

/-- `GUSChannels::generateSamples`: additively mixes into the accumulator
unless the voice is fully disabled (`RampCtrl & WaveCtrl & 3`). -/
def generateSamples (vol : ℕ → ℚ) (pan : ℕ → ℚ × ℚ) (ram : ℕ → ℕ)
    (acc : List (ℚ × ℚ)) (g : GenSt) : List (ℚ × ℚ) × GenSt :=
  if g.v.RampCtrl &&& g.v.WaveCtrl &&& 3 ≠ 0 then (acc, g)
  else
    let p := genLoop vol pan ram acc g
    (p.1, { p.2 with v := incGenerated p.2.v })

/-- Exact rational model of `PopulateVolScalars`: `vol_scalars[4095] = 1`
and each lower entry is the next divided by `GUS_VOLUME_SCALE_DIV`;
entry 0 is forced to zero.  (The source computes this in `double`.) -/
def volScalarsQ (i : ℕ) : ℚ :=
  if i = 0 then 0 else (1000000000 / 1002709201 : ℚ) ^ (4095 - i)

/-- A pan table holding the hard-left pair everywhere.  At position 0 the
real table `PopulatePanScalars` computes `(cos 0, sin 0) = (1, 0)` exactly,
so this function agrees with it at position 0 (the only position the
concrete counterexamples below use). -/
def panHardLeft : ℕ → ℚ × ℚ := fun _ => ((1 : ℚ), (0 : ℚ))

/-- One of the two `GusTimer`s inside `struct GFGus`. -/
structure GusTimer where
  value : ℕ := 0
  reached : Bool := false
  raiseirq : Bool := false
  masked : Bool := false
  running : Bool := false
  delay : ℚ := 0
  deriving Repr, DecidableEq

/-- `struct GFGus` (the global card state `myGUS`). -/
structure GFGus where
  gRegSelect : ℕ := 0
  gRegData : ℕ := 0
  gDramAddr : ℕ := 0
  gCurChannel : ℕ := 0
  DMAControl : ℕ := 0
  dmaAddr : ℕ := 0
  TimerControl : ℕ := 0
  SampControl : ℕ := 0
  mixControl : ℕ := 0
  ActiveChannels : ℕ := 0
  basefreq : ℕ := 0
  timer0 : GusTimer := {}
  timer1 : GusTimer := {}
  rate : ℕ := 0
  peak : ℚ × ℚ := (1, 1)
  dma1 : ℕ := 0
  dma2 : ℕ := 0
  irq1 : ℕ := 0
  irq2 : ℕ := 0
  irqenabled : Bool := false
  ChangeIRQDMA : Bool := false
  IRQStatus : ℕ := 0
  ActiveMask : ℕ := 0
  IRQChan : ℕ := 0
  RampIRQ : ℕ := 0
  WaveIRQ : ℕ := 0
  deriving Repr, DecidableEq

/-- The whole modelled machine: `myGUS`, the 32 `guschan` voices (as a
total function; indices ≥ 32 stand for the memory past the array), the
1 MiB `GUSRam` (bytes; addresses ≥ 2^20 stand for the memory past the
array), the `curchan` pointer and `adlib_commandreg`. -/
structure GusState where
  g : GFGus
  voices : ℕ → Voice
  ram : ℕ → ℕ
  cur : Option ℕ
  adlib : ℕ

/-- Replace voice `i`. -/
def setVoice (i : ℕ) (v : Voice) (s : GusState) : GusState :=
  { s with voices := fun j => if j = i then v else s.voices j }

/-- Apply a voice-local function to voice `i` (a `curchan->...` call that
touches no global state). -/
def mapVoice (i : ℕ) (f : Voice → Voice) (s : GusState) : GusState :=
  setVoice i (f (s.voices i)) s

/-- `if (curchan) ...`: run `f` on the selected voice index, if any. -/
def withCur (s : GusState) (f : ℕ → GusState) : GusState :=
  match s.cur with
  | none => s
  | some c => f c

/-- The `for (;;)` cursor-advance loop at the end of `CheckVoiceIrq`,
made total with fuel.  Under a well-formed state (some bit of `total`
below `act` is set, `act ≤ 32`) fuel 128 is never exhausted; a state on
which the C++ loop would spin forever returns the junk value `chan`. -/
def advanceChan (total : ℕ) : ℕ → ℕ → ℕ → ℕ
  | 0, chan, _ => chan
  | fuel + 1, chan, act =>
    if total.testBit chan then chan
    else
      let c := chan + 1
      let c := if act ≤ c then 0 else c
      advanceChan total fuel c act

/-- `(myGUS.RampIRQ | myGUS.WaveIRQ) & myGUS.ActiveMask`. -/
def totalmask (s : GusState) : ℕ :=
  (s.g.RampIRQ ||| s.g.WaveIRQ) &&& s.g.ActiveMask

/-- `CheckVoiceIrq`: recompute IRQ-status bits 5/6 and advance the
round-robin cursor to a pending voice.  (`GUS_CheckIRQ` only edges the
external PIC line and is out of scope.) -/
def CheckVoiceIrq (s : GusState) : GusState :=
  let s1 := { s with g := { s.g with IRQStatus := s.g.IRQStatus &&& 0x9f } }
  let total := totalmask s
  if total = 0 then s1
  else
    let st1 := if s1.g.RampIRQ ≠ 0 then
        { s1 with g := { s1.g with IRQStatus := s1.g.IRQStatus ||| 0x40 } } else s1
    let st2 := if st1.g.WaveIRQ ≠ 0 then
        { st1 with g := { st1.g with IRQStatus := st1.g.IRQStatus ||| 0x20 } } else st1
    { st2 with g := { st2.g with
        IRQChan := advanceChan total 128 st2.g.IRQChan st2.g.ActiveChannels } }

/-- `GUSChannels::WriteWaveCtrl` for voice `i` (it also maintains the
aggregator's `WaveIRQ` bit and may re-run `CheckVoiceIrq`). -/
def stWriteWaveCtrl (i : ℕ) (val : ℕ) (s : GusState) : GusState :=
  let v8 := val % 256
  let oldirq := s.g.WaveIRQ
  let v := s.voices i
  let ctrl := v8 &&& 0x7f
  let s1 := setVoice i { v with WaveCtrl := ctrl, is16bit := ctrl &&& 0x04 ≠ 0 } s
  let wIRQ := if v8 &&& 0xa0 = 0xa0 then oldirq ||| (1 <<< v.channum)
              else oldirq &&& (0xffffffff ^^^ (1 <<< v.channum))
  let s2 := { s1 with g := { s1.g with WaveIRQ := wIRQ } }
  if oldirq ≠ wIRQ then CheckVoiceIrq s2 else s2

/-- `GUSChannels::WriteRampCtrl` for voice `i`. -/
def stWriteRampCtrl (i : ℕ) (val : ℕ) (s : GusState) : GusState :=
  let v8 := val % 256
  let oldirq := s.g.RampIRQ
  let v := s.voices i
  let s1 := setVoice i { v with RampCtrl := v8 &&& 0x7f } s
  let rIRQ := if v8 &&& 0xa0 = 0xa0 then oldirq ||| (1 <<< v.channum)
              else oldirq &&& (0xffffffff ^^^ (1 <<< v.channum))
  let s2 := { s1 with g := { s1.g with RampIRQ := rIRQ } }
  if oldirq ≠ rIRQ then CheckVoiceIrq s2 else s2

/-- `GUSChannels::ReadWaveCtrl` for voice `i`. -/
def stReadWaveCtrl (i : ℕ) (s : GusState) : ℕ :=
  if s.g.WaveIRQ &&& (1 <<< (s.voices i).channum) ≠ 0 then (s.voices i).WaveCtrl ||| 0x80
  else (s.voices i).WaveCtrl

/-- `GUSChannels::ReadRampCtrl` for voice `i`. -/
def stReadRampCtrl (i : ℕ) (s : GusState) : ℕ :=
  if s.g.RampIRQ &&& (1 <<< (s.voices i).channum) ≠ 0 then (s.voices i).RampCtrl ||| 0x80
  else (s.voices i).RampCtrl

/-- Per-channel body of the reset loop in `GUSReset`. -/
def resetChannel (s : GusState) (i : ℕ) : GusState :=
  let s1 := mapVoice i (fun v => { v with CurrentVolIndex := 0 }) s
  let s2 := stWriteWaveCtrl i 0x1 s1
  let s3 := stWriteRampCtrl i 0x1 s2
  let s4 := mapVoice i (WritePanPot 0x7) s3
  mapVoice i ClearStats s4

/-- The scalar-field part of the reset branch of `GUSReset` (timer
reloads, IRQ status, mix control, `adlib_commandreg`). -/
def resetGlobals (s : GusState) : GusState :=
  let t0 : GusTimer := { s.g.timer0 with
    raiseirq := false
    reached := false
    running := false
    value := 0xff
    delay := 8 / 100 }
  let t1 : GusTimer := { s.g.timer1 with
    raiseirq := false
    reached := false
    running := false
    value := 0xff
    delay := 32 / 100 }
  { s with
    adlib := 85,
    g := { s.g with
      IRQStatus := 0,
      timer0 := t0,
      timer1 := t1,
      ChangeIRQDMA := false,
      mixControl := 0x0b } }

/-- The tail of the reset branch of `GUSReset`: `IRQChan = 0` and the
peak amplitudes back to `(1, 1)`. -/
def finishReset (s2 : GusState) : GusState :=
  { s2 with g := { s2.g with IRQChan := 0, peak := (1, 1) } }

/-- The final statement of `GUSReset`: `irqenabled` tracks bit 2 of the
written data. -/
def setIrqEnabled (s : GusState) : GusState :=
  { s with g := { s.g with irqenabled := s.g.gRegData &&& 0x4 ≠ 0 } }

/-- `GUSReset` (`PrintStats` only logs and is omitted). -/
def GUSReset (s : GusState) : GusState :=
  setIrqEnabled
    (if s.g.gRegData &&& 0x1 = 0x1 then
      finishReset ((List.range 32).foldl resetChannel (resetGlobals s))
    else s)

/-- Real-arithmetic model of the `double` expression computing `basefreq`
for `n` active channels: `uint32_t(0.5 + 1000000.0 / (1.619695497 * n))`. -/
def basefreqModel (n : ℕ) : ℕ :=
  (Rat.floor ((1 : ℚ) / 2 + 1000000 / ((1619695497 : ℚ) / 1000000000 * n))).toNat

/-- The clearing step of the register-0x8F read: drop the reported
voice's bits from both IRQ bitmaps. -/
def clearVoiceIrqAt (s : GusState) : GusState :=
  let mask := 1 <<< s.g.IRQChan
  { s with g := { s.g with
      RampIRQ := s.g.RampIRQ &&& (0xffffffff ^^^ mask),
      WaveIRQ := s.g.WaveIRQ &&& (0xffffffff ^^^ mask) } }

/-- `ExecuteReadRegister` (returns the updated state and the `uint16_t`
result; cases `0x41` and `0x8f` mutate IRQ bookkeeping). -/
def ExecuteReadRegister (s : GusState) : GusState × ℕ :=
  let r := s.g.gRegSelect
  if r = 0x41 then
    let tmpreg := (s.g.DMAControl &&& 0xbf) ||| ((s.g.IRQStatus &&& 0x80) >>> 1)
    ({ s with g := { s.g with IRQStatus := s.g.IRQStatus &&& 0x7f } }, (tmpreg <<< 8) % 65536)
  else if r = 0x42 then (s, s.g.dmaAddr)
  else if r = 0x45 then (s, (s.g.TimerControl <<< 8) % 65536)
  else if r = 0x49 then
    let tmpreg := (s.g.DMAControl &&& 0xbf) ||| ((s.g.IRQStatus &&& 0x80) >>> 1)
    (s, (tmpreg <<< 8) % 65536)
  else if r = 0x80 then
    (s, match s.cur with
        | some c => (stReadWaveCtrl c s <<< 8) % 65536
        | none => 0x0300)
  else if r = 0x82 then
    (s, match s.cur with
        | some c => ((s.voices c).WaveStart >>> 16) % 65536
        | none => 0)
  else if r = 0x83 then
    (s, match s.cur with
        | some c => (s.voices c).WaveStart % 65536
        | none => 0)
  else if r = 0x89 then
    (s, match s.cur with
        | some c => ((s.voices c).CurrentVolIndex <<< 4) % 65536
        | none => 0)
  else if r = 0x8a then
    (s, match s.cur with
        | some c => ((s.voices c).WaveAddr >>> 16) % 65536
        | none => 0)
  else if r = 0x8b then
    (s, match s.cur with
        | some c => (s.voices c).WaveAddr % 65536
        | none => 0)
  else if r = 0x8d then
    (s, match s.cur with
        | some c => (stReadRampCtrl c s <<< 8) % 65536
        | none => 0x0300)
  else if r = 0x8f then
    let tmpreg := s.g.IRQChan ||| 0x20
    let mask := 1 <<< s.g.IRQChan
    let tmpreg := if s.g.RampIRQ &&& mask = 0 then tmpreg ||| 0x40 else tmpreg
    let tmpreg := if s.g.WaveIRQ &&& mask = 0 then tmpreg ||| 0x80 else tmpreg
    (CheckVoiceIrq (clearVoiceIrqAt s), (tmpreg <<< 8) % 65536)
  else (s, s.g.gRegData)

/-- `ExecuteGlobRegister` (DMA for registers 0x41/0x49 only re-registers
the external DMA callback; `SetFreq`/`Enable` go to the external mixer). -/
def ExecuteGlobRegister (s : GusState) : GusState :=
  let r := s.g.gRegSelect
  if r = 0x0 then withCur s (fun c => stWriteWaveCtrl c (s.g.gRegData >>> 8) s)
  else if r = 0x1 then withCur s (fun c => mapVoice c (WriteWaveFreq s.g.gRegData) s)
  else if r = 0x2 then
    withCur s (fun c => mapVoice c (fun v =>
      { v with WaveStart := (v.WaveStart &&& 0xffff) ||| (u32 ((s.g.gRegData &&& 0x1fff) <<< 16)) }) s)
  else if r = 0x3 then
    withCur s (fun c => mapVoice c (fun v =>
      { v with WaveStart := (v.WaveStart &&& 0xffff0000) ||| s.g.gRegData }) s)
  else if r = 0x4 then
    withCur s (fun c => mapVoice c (fun v =>
      { v with WaveEnd := (v.WaveEnd &&& 0xffff) ||| (u32 ((s.g.gRegData &&& 0x1fff) <<< 16)) }) s)
  else if r = 0x5 then
    withCur s (fun c => mapVoice c (fun v =>
      { v with WaveEnd := (v.WaveEnd &&& 0xffff0000) ||| s.g.gRegData }) s)
  else if r = 0x6 then withCur s (fun c => mapVoice c (WriteRampRate (s.g.gRegData >>> 8)) s)
  else if r = 0x7 then
    withCur s (fun c => mapVoice c (fun v =>
      { v with StartVolIndex := ((s.g.gRegData >>> 8) % 256) <<< 4 }) s)
  else if r = 0x8 then
    withCur s (fun c => mapVoice c (fun v =>
      { v with EndVolIndex := ((s.g.gRegData >>> 8) % 256) <<< 4 }) s)
  else if r = 0x9 then
    withCur s (fun c => mapVoice c (fun v =>
      { v with CurrentVolIndex := s.g.gRegData >>> 4 }) s)
  else if r = 0xA then
    withCur s (fun c => mapVoice c (fun v =>
      { v with WaveAddr := (v.WaveAddr &&& 0xffff) ||| (u32 ((s.g.gRegData &&& 0x1fff) <<< 16)) }) s)
  else if r = 0xB then
    withCur s (fun c => mapVoice c (fun v =>
      { v with WaveAddr := (v.WaveAddr &&& 0xffff0000) ||| s.g.gRegData }) s)
  else if r = 0xC then withCur s (fun c => mapVoice c (WritePanPot (s.g.gRegData >>> 8)) s)
  else if r = 0xD then withCur s (fun c => stWriteRampCtrl c (s.g.gRegData >>> 8) s)
  else if r = 0xE then
    let s := { s with g := { s.g with gRegSelect := s.g.gRegData >>> 8 } }
    let requested := clampNat (1 + ((s.g.gRegData >>> 8) &&& 63)) 14 32
    let s :=
      if requested ≠ s.g.ActiveChannels then
        { s with g := { s.g with
            ActiveChannels := requested,
            ActiveMask := 0xffffffff >>> (32 - requested),
            basefreq := basefreqModel requested } }
      else s
    (List.range s.g.ActiveChannels).foldl (fun t i => mapVoice i UpdateWaveRamp t) s
  else if r = 0x10 then s
  else if r = 0x41 then { s with g := { s.g with DMAControl := s.g.gRegData >>> 8 } }
  else if r = 0x42 then { s with g := { s.g with dmaAddr := s.g.gRegData } }
  else if r = 0x43 then
    { s with g := { s.g with gDramAddr := (0xff0000 &&& s.g.gDramAddr) ||| s.g.gRegData } }
  else if r = 0x44 then
    { s with g := { s.g with
        gDramAddr := u32 ((0xffff &&& s.g.gDramAddr) ||| ((s.g.gRegData >>> 8) <<< 16)) } }
  else if r = 0x45 then
    let tc := s.g.gRegData >>> 8
    let s := { s with g := { s.g with
        TimerControl := tc
        timer0 := { s.g.timer0 with raiseirq := tc &&& 0x04 ≠ 0 }
        timer1 := { s.g.timer1 with raiseirq := tc &&& 0x08 ≠ 0 } } }
    let s := if tc &&& 0x04 = 0 then
        { s with g := { s.g with IRQStatus := s.g.IRQStatus &&& 0xfb } } else s
    if tc &&& 0x08 = 0 then
      { s with g := { s.g with IRQStatus := s.g.IRQStatus &&& 0xf7 } } else s
  else if r = 0x46 then
    let v := s.g.gRegData >>> 8
    let t0 : GusTimer := { s.g.timer0 with
      value := v
      delay := ((0x100 - v : ℕ) : ℚ) * (8 / 100) }
    { s with g := { s.g with timer0 := t0 } }
  else if r = 0x47 then
    let v := s.g.gRegData >>> 8
    let t1 : GusTimer := { s.g.timer1 with
      value := v
      delay := ((0x100 - v : ℕ) : ℚ) * (32 / 100) }
    { s with g := { s.g with timer1 := t1 } }
  else if r = 0x49 then { s with g := { s.g with SampControl := s.g.gRegData >>> 8 } }
  else if r = 0x4c then GUSReset s
  else s

/-- Lookup tables used by port 0x20b (`irqtable` / `dmatable`). -/
def irqtable (i : ℕ) : ℕ := [0, 2, 5, 3, 7, 11, 12, 15].getD i 0

def dmatable (i : ℕ) : ℕ := [0, 1, 3, 5, 6, 7, 0, 0].getD i 0

/-- `write_gus`; `port` is the offset from the card base port. -/
def write_gus (port val iolen : ℕ) (s : GusState) : GusState :=
  if port = 0x200 then
    { s with g := { s.g with mixControl := val % 256, ChangeIRQDMA := true } }
  else if port = 0x208 then { s with adlib := val % 256 }
  else if port = 0x209 then
    if val &&& 0x80 ≠ 0 then
      { s with g := { s.g with
          timer0 := { s.g.timer0 with reached := false }
          timer1 := { s.g.timer1 with reached := false } } }
    else
      let s := { s with g := { s.g with
          timer0 := { s.g.timer0 with masked := val &&& 0x40 ≠ 0 }
          timer1 := { s.g.timer1 with masked := val &&& 0x20 ≠ 0 } } }
      let s := { s with g := { s.g with
          timer0 := { s.g.timer0 with running := val &&& 0x1 ≠ 0 } } }
      { s with g := { s.g with
          timer1 := { s.g.timer1 with running := val &&& 0x2 ≠ 0 } } }
  else if port = 0x20b then
    if ¬s.g.ChangeIRQDMA then s
    else
      let s := { s with g := { s.g with ChangeIRQDMA := false } }
      if s.g.mixControl &&& 0x40 ≠ 0 then
        if irqtable (val &&& 0x7) ≠ 0 then
          { s with g := { s.g with irq1 := irqtable (val &&& 0x7) } }
        else s
      else
        if dmatable (val &&& 0x7) ≠ 0 then
          { s with g := { s.g with dma1 := dmatable (val &&& 0x7) } }
        else s
  else if port = 0x302 then
    { s with g := { s.g with gCurChannel := val &&& 31 }, cur := some (val &&& 31) }
  else if port = 0x303 then
    { s with g := { s.g with gRegSelect := val % 256, gRegData := 0 } }
  else if port = 0x304 then
    if iolen = 2 then ExecuteGlobRegister { s with g := { s.g with gRegData := val % 65536 } }
    else { s with g := { s.g with gRegData := val % 65536 } }
  else if port = 0x305 then
    ExecuteGlobRegister { s with g := { s.g with
        gRegData := ((0x00ff &&& s.g.gRegData) ||| (val <<< 8)) % 65536 } }
  else if port = 0x307 then
    if s.g.gDramAddr < 1048576 then
      { s with ram := fun a => if a = s.g.gDramAddr then val % 256 else s.ram a }
    else s
  else s

/-- `read_gus`; returns the possibly-updated state and the value read. -/
def read_gus (port iolen : ℕ) (s : GusState) : GusState × ℕ :=
  if port = 0x206 then (s, s.g.IRQStatus)
  else if port = 0x208 then
    let t := 0
    let t := if s.g.timer0.reached then t ||| 0x40 else t
    let t := if s.g.timer1.reached then t ||| 0x20 else t
    let t := if t &&& 0x60 ≠ 0 then t ||| 0x80 else t
    let t := if s.g.IRQStatus &&& 0x04 ≠ 0 then t ||| 0x04 else t
    let t := if s.g.IRQStatus &&& 0x08 ≠ 0 then t ||| 0x02 else t
    (s, t)
  else if port = 0x20a then (s, s.adlib)
  else if port = 0x302 then (s, s.g.gCurChannel % 256)
  else if port = 0x303 then (s, s.g.gRegSelect)
  else if port = 0x304 then
    let p := ExecuteReadRegister s
    if iolen = 2 then (p.1, p.2 &&& 0xffff) else (p.1, p.2 &&& 0xff)
  else if port = 0x305 then
    let p := ExecuteReadRegister s
    (p.1, p.2 >>> 8)
  else if port = 0x307 then
    if s.g.gDramAddr < 1048576 then (s, s.ram s.g.gDramAddr) else (s, 0)
  else (s, 0xff)

/-- `GUS_TimerEvent` for timer `i` (the PIC notification and the event
re-scheduling are external). -/
def timerEvent (i : Bool) (s : GusState) : GusState :=
  let t := if i then s.g.timer1 else s.g.timer0
  let t1 := if ¬t.masked then { t with reached := true } else t
  let s := if i then { s with g := { s.g with timer1 := t1 } }
           else { s with g := { s.g with timer0 := t1 } }
  if t.raiseirq then
    { s with g := { s.g with IRQStatus := s.g.IRQStatus ||| (if i then 0x8 else 0x4) } }
  else s

/-- Over-approximation of `GUS_DMA_Callback` on the modelled state: the
transfer rewrites some region of `GUSRam` (here: an arbitrary new memory
image, which subsumes the real bounded write) and, when bit 5 of
`DMAControl` is set, raises the DMA-TC bit of `IRQStatus`. -/
def dmaEffect (newRam : ℕ → ℕ) (s : GusState) : GusState :=
  let s := { s with ram := newRam }
  if s.g.DMAControl &&& 0x20 ≠ 0 then
    { s with g := { s.g with IRQStatus := s.g.IRQStatus ||| 0x80 } }
  else s

/-- `SoftLimit`: `none` models `return false` (no limiting); `some`
carries the scaled output frames and the released peak amplitudes. -/
def SoftLimit (peak : ℚ × ℚ) (acc : List (ℚ × ℚ)) :
    Option ((ℚ × ℚ) × List (ℤ × ℤ)) :=
  let maxAllowed : ℚ := 32766
  if peak.1 < maxAllowed ∧ peak.2 < maxAllowed then none
  else
    let rl := min 1 (maxAllowed / peak.1)
    let rr := min 1 (maxAllowed / peak.2)
    let out := acc.map (fun fr => (ratTrunc (fr.1 * rl), ratTrunc (fr.2 * rr)))
    let releaseAmount : ℚ := maxAllowed * (1002709201 / 1000000000 - 1)
    let pl := if peak.1 > maxAllowed then peak.1 - releaseAmount else peak.1
    let pr := if peak.2 > maxAllowed then peak.2 - releaseAmount else peak.2
    some ((pl, pr), out)

/-- The voice-accumulation loop at the top of `GUS_CallBack`. -/
def mixVoices (vol : ℕ → ℚ) (pan : ℕ → ℚ × ℚ) (len : ℕ) (s : GusState) :
    List (ℚ × ℚ) × GusState :=
  (List.range s.g.ActiveChannels).foldl
    (fun p i =>
      let t := p.2
      let q := generateSamples vol pan t.ram p.1
        { v := t.voices i, pk := t.g.peak, wIRQ := t.g.WaveIRQ, rIRQ := t.g.RampIRQ }
      (q.1, setVoice i q.2.v
        { t with g := { t.g with peak := q.2.pk, WaveIRQ := q.2.wIRQ, RampIRQ := q.2.rIRQ } }))
    (List.replicate len ((0 : ℚ), (0 : ℚ)), s)

/-- `GUS_CallBack`: accumulate all active voices, soft-limit or truncate,
emit the signed 16-bit frames, re-evaluate the voice IRQ state. -/
def GUS_CallBack (vol : ℕ → ℚ) (pan : ℕ → ℚ × ℚ) (len : ℕ) (s : GusState) :
    GusState × List (ℤ × ℤ) :=
  let p := mixVoices vol pan len s
  match SoftLimit p.2.g.peak p.1 with
  | none =>
    (CheckVoiceIrq p.2, p.1.map (fun fr => (ratTrunc fr.1, ratTrunc fr.2)))
  | some q =>
    (CheckVoiceIrq { p.2 with g := { p.2.g with peak := q.1 } }, q.2)

/-- The state right after the `GUS` constructor: default `myGUS` and
voices, `gRegData = 1`, `GUSReset()`, `gRegData = 0`.  `dmaV`/`irqV` are
the configured DMA and IRQ numbers. -/
def clearRegData (s : GusState) : GusState :=
  { s with g := { s.g with gRegData := 0 } }

def initState (dmaV irqV : ℕ) : GusState :=
  let s0 : GusState :=
    { g := { dma1 := dmaV, dma2 := dmaV, irq1 := irqV, irq2 := irqV, gRegData := 1 },
      voices := fun i => mkVoice i,
      ram := fun _ => 0,
      cur := none,
      adlib := 0 }
  clearRegData (GUSReset s0)

/-- One observable transition of the engine: a host register write, a
host register read (reads of ports 0x304/0x305 mutate IRQ bookkeeping),
a mix callback of at most `GUS_BUFFER_FRAMES` frames, a timer expiry, or
a DMA transfer. -/
inductive Step (vol : ℕ → ℚ) (pan : ℕ → ℚ × ℚ) (s : GusState) : GusState → Prop
  | write (port val iolen : ℕ) : Step vol pan s (write_gus port val iolen s)
  | read (port iolen : ℕ) : Step vol pan s (read_gus port iolen s).1
  | mix (len : ℕ) (hlen : len ≤ 64) : Step vol pan s (GUS_CallBack vol pan len s).1
  | timer (i : Bool) : Step vol pan s (timerEvent i s)
  | dmaTransfer (newRam : ℕ → ℕ) : Step vol pan s (dmaEffect newRam s)

/-- States reachable from construction with DMA/IRQ configuration
`dmaV`/`irqV`, under volume/pan tables `vol`/`pan`. -/
def Reachable (vol : ℕ → ℚ) (pan : ℕ → ℚ × ℚ) (dmaV irqV : ℕ) (s : GusState) : Prop :=
  Relation.ReflTransGen (Step vol pan) (initState dmaV irqV) s

/-! Concrete sample memories, voices and states used to check the claims
on explicit inputs. -/

/-- Sample memory holding byte 100 everywhere. -/
def gusRam100 : ℕ → ℕ := fun _ => 100

/-- A voice whose wave side is stopped (`wave_ctrl = 1`) but whose ramp
side is running (`ramp_ctrl = 0`), at unity volume index and hard-left
pan, stepping one byte per frame. -/
def voiceWaveStopped : Voice :=
  { mkVoice 0 with WaveAddr := 0, WaveAdd := 512, WaveCtrl := 1, RampCtrl := 0,
                   CurrentVolIndex := 4095, PanPot := 0 }

def genStWaveStopped : GenSt :=
  { v := voiceWaveStopped, pk := (1, 1), wIRQ := 0, rIRQ := 0 }

/-- Sample memory that is zero inside the 1 MiB array and holds byte 1 in
the (out-of-bounds) cell one past it. -/
def gusRamOOB : ℕ → ℕ := fun a => if a = 1048576 then 1 else 0

/-- A voice whose phase accumulator points at byte address 2^20 (one past
the end of `GUSRam`); such a `WaveAddr` is reachable because rollover
mode (`ramp_ctrl` bit 2) lets the accumulator keep growing past
`wave_end` (and wrap below zero when decreasing). -/
def voiceOOB : Voice := { mkVoice 0 with WaveAddr := 536870912, WaveAdd := 512 }

/-- A playing voice at unity volume and hard-left pan reading the loudest
positive 8-bit sample (its ramp side is stopped, its wave end far away). -/
def voiceLoud (i : ℕ) : Voice :=
  { mkVoice i with WaveAddr := 0, WaveAdd := 512, WaveCtrl := 0, RampCtrl := 1,
                   CurrentVolIndex := 4095, PanPot := 0, WaveEnd := 1048576 }

/-- Two active `voiceLoud` voices over memory full of byte 127; peaks
start at the reset value `(1, 1)`. -/
def stateTwoLoud : GusState :=
  { g := { ActiveChannels := 2, ActiveMask := 3, peak := (1, 1) },
    voices := fun i => if i < 2 then voiceLoud i else mkVoice i,
    ram := fun _ => 127,
    cur := none,
    adlib := 0 }

/-- A fully disabled voice (both stopped bits set on both controls). -/
def genStDisabled : GenSt :=
  { v := { mkVoice 4 with WaveCtrl := 3, RampCtrl := 3 }, pk := (2, 3), wIRQ := 5, rIRQ := 9 }

/-- One host read of the data port with global register 0x8F selected:
the state effect of `ExecuteReadRegister`. -/
def drainRead (s : GusState) : GusState := (ExecuteReadRegister s).1

/-- Number of set bits among the 32 voice positions. -/
def popcount32 (t : ℕ) : ℕ := ((Finset.range 32).filter (fun j => t.testBit j)).card

/-- Well-formedness of the IRQ bookkeeping needed for the drain claim:
a sane active-voice count with matching mask, an in-range round-robin
cursor, and register 0x8F selected. -/
def DrainWF (s : GusState) : Prop :=
  s.g.ActiveChannels ≤ 32 ∧ s.g.ActiveMask = 2 ^ s.g.ActiveChannels - 1 ∧
  s.g.IRQChan < 32 ∧ s.g.gRegSelect = 0x8f

/-! Invariant infrastructure for the reachable-state claims (C5, C9). -/

/-- The per-voice invariant: neither stored control byte ever has bit 7
(irq-pending) set, and the voice knows its own index. -/
def VoiceOk (i : ℕ) (v : Voice) : Prop :=
  v.WaveCtrl.testBit 7 = false ∧ v.RampCtrl.testBit 7 = false ∧ v.channum = i

/-- The global invariant: the active-voice count is 0 (before the first
write to register 0x0E) or in [14, 32], `ActiveMask` consists of exactly
`ActiveChannels` low bits, and every voice satisfies `VoiceOk`. -/
def StateInv (s : GusState) : Prop :=
  (s.g.ActiveChannels = 0 ∨ (14 ≤ s.g.ActiveChannels ∧ s.g.ActiveChannels ≤ 32)) ∧
  s.g.ActiveMask = 2 ^ s.g.ActiveChannels - 1 ∧
  ∀ i, VoiceOk i (s.voices i)

/-! Helper lemmas about the embedded operations. -/

theorem setVoice_g (i : ℕ) (v : Voice) (s : GusState) : (setVoice i v s).g = s.g := rfl

theorem mapVoice_g (i : ℕ) (f : Voice → Voice) (s : GusState) : (mapVoice i f s).g = s.g := rfl

theorem mapVoice_cur (i : ℕ) (f : Voice → Voice) (s : GusState) : (mapVoice i f s).cur = s.cur := rfl

theorem foldl_mapVoice_g (f : Voice → Voice) :
    ∀ (l : List ℕ) (s : GusState), (l.foldl (fun t i => mapVoice i f t) s).g = s.g := by
  intro l
  induction l with
  | nil => intro s; rfl
  | cons a l ih => intro s; rw [List.foldl_cons, ih, mapVoice_g]

/-- If the wave side is stopped, `WaveUpdate` changes nothing. -/
theorem WaveUpdate_of_stopped (v : Voice) (w : ℕ) (h : v.WaveCtrl &&& 3 ≠ 0) :
    WaveUpdate v w = (v, w) := by
  simp only [WaveUpdate]
  rw [if_pos h]

/-- `RampUpdate` never moves the phase accumulator. -/
theorem RampUpdate_fst_WaveAddr (v : Voice) (r : ℕ) :
    ((RampUpdate v r).1).WaveAddr = v.WaveAddr := by
  simp only [RampUpdate]
  split_ifs <;> rfl

/-! Claim C1. -/

/-- C1 counterexample: the claim "`(wave_ctrl AND 0x03) ≠ 0` implies no
sample is emitted for that frame" is false on the code: with the wave
side stopped but the ramp side running, `generateSamples` still runs the
frame body and adds the voice's sample into the accumulator slots (here
the left slot moves from 0 to 25600). -/
theorem C1_counterexample :
    voiceWaveStopped.WaveCtrl &&& 3 ≠ 0 ∧
    (genFrame volScalarsQ panHardLeft gusRam100 (0, 0) genStWaveStopped).1 ≠ ((0 : ℚ), (0 : ℚ)) := by
  refine ⟨by decide, ?_⟩
  have hval : (genFrame volScalarsQ panHardLeft gusRam100 (0, 0) genStWaveStopped).1.1 = 25600 := by
    norm_num [genFrame, GetSample8, genStWaveStopped, voiceWaveStopped, mkVoice, gusRam100,
              int8val, volScalarsQ, panHardLeft]
  intro h
  have h1 := congrArg Prod.fst h
  rw [hval] at h1
  norm_num at h1

/-- C1 (amended): for every voice and every generated frame, if
`(wave_ctrl AND 0x03) ≠ 0` then `wave_addr` is unchanged by that frame;
the voice may still emit a sample — emission is suppressed only when
`ramp_ctrl AND wave_ctrl AND 3` is nonzero, which skips the whole block. -/
theorem C1_wave_stopped_addr_unchanged (vol : ℕ → ℚ) (pan : ℕ → ℚ × ℚ) (ram : ℕ → ℕ)
    (fr : ℚ × ℚ) (g : GenSt) (h : g.v.WaveCtrl &&& 3 ≠ 0) :
    ((genFrame vol pan ram fr g).2).v.WaveAddr = g.v.WaveAddr := by
  simp only [genFrame, WaveUpdate_of_stopped g.v g.wIRQ h]
  exact RampUpdate_fst_WaveAddr _ _

theorem C1_wave_stopped_addr_unchanged_witness :
    voiceWaveStopped.WaveCtrl &&& 3 ≠ 0 ∧
    ((genFrame volScalarsQ panHardLeft gusRam100 (0, 0) genStWaveStopped).2).v.WaveAddr =
      voiceWaveStopped.WaveAddr :=
  ⟨by decide,
   C1_wave_stopped_addr_unchanged volScalarsQ panHardLeft gusRam100 (0, 0) genStWaveStopped
     (by decide)⟩

/-! Claim C3. -/

/-- C3: evaluation at the failing input.  With `wave_addr = 0x20000000`
(so `base = 2^20`) the code's 8-bit sampler reads the cell one past the
1 MiB array (here holding 1, giving 256), while the specified sampler
reads the wrapped address `base mod 2^20 = 0` (holding 0, giving 0):
the code does not wrap the current sample's byte address. -/
theorem C3_base_address_not_wrapped :
    GetSample8 gusRamOOB voiceOOB = 256 ∧ GetSample8_spec gusRamOOB voiceOOB = 0 := by
  constructor
  · norm_num [GetSample8, gusRamOOB, voiceOOB, mkVoice, int8val, Nat.shiftRight_eq_div_pow]
  · norm_num [GetSample8_spec, gusRamOOB, voiceOOB, mkVoice, int8val, Nat.shiftRight_eq_div_pow]

/-! Claim C6. -/

/-- C6: for every 8-bit ramp-rate value, with `scale = rate AND 0x3F`,
the stored ramp increment is 0 when `scale = 0` or when the 8-bit
`divider = 1 << (3·(rate >> 6))` truncates to 0 (exactly the case
`rate >> 6 = 3`, since `1 << 9 = 512 ≡ 0 (mod 256)`), and is the ceiling
division `ceil(scale / 2^(3·(rate >> 6)))` otherwise. -/
theorem C6_ramp_rate_increment (val : ℕ) (v : Voice) :
    (WriteRampRate val v).IncrVolIndex =
      (if (val % 256) &&& 63 = 0 ∨ (val % 256) >>> 6 = 3 then 0
       else ((val % 256) &&& 63) ⌈/⌉ 2 ^ (3 * ((val % 256) >>> 6))) := by
  simp only [WriteRampRate]
  have hr : val % 256 < 256 := Nat.mod_lt _ (by norm_num)
  have hk : (val % 256) >>> 6 < 4 := by
    rw [Nat.shiftRight_eq_div_pow]
    omega
  set k := (val % 256) >>> 6 with hkdef
  interval_cases k <;>
    simp [ceil_udivide, Nat.ceilDiv_eq_add_pred_div, Nat.shiftLeft_eq]

/-! Claim C7. -/

/-- C7: a voice whose `ramp_ctrl` and `wave_ctrl` both have their lowest
two bits set contributes nothing for any number of frames: the
accumulator, the voice state, the peak and both IRQ bitmaps are returned
untouched. -/
theorem C7_disabled_voice_inert (vol : ℕ → ℚ) (pan : ℕ → ℚ × ℚ) (ram : ℕ → ℕ)
    (acc : List (ℚ × ℚ)) (g : GenSt)
    (h1 : g.v.RampCtrl &&& 3 = 3) (h2 : g.v.WaveCtrl &&& 3 = 3) :
    generateSamples vol pan ram acc g = (acc, g) := by
  have hr : (g.v.RampCtrl).testBit 0 = true := by
    have hx : (g.v.RampCtrl &&& 3).testBit 0 = true := by rw [h1]; decide
    rw [Nat.testBit_and, Bool.and_eq_true] at hx
    exact hx.1
  have hw : (g.v.WaveCtrl).testBit 0 = true := by
    have hx : (g.v.WaveCtrl &&& 3).testBit 0 = true := by rw [h2]; decide
    rw [Nat.testBit_and, Bool.and_eq_true] at hx
    exact hx.1
  have hb : g.v.RampCtrl &&& g.v.WaveCtrl &&& 3 ≠ 0 := by
    intro h0
    have hx : (g.v.RampCtrl &&& g.v.WaveCtrl &&& 3).testBit 0 = true := by
      rw [Nat.testBit_and, Nat.testBit_and, hr, hw]
      decide
    rw [h0, Nat.zero_testBit] at hx
    exact Bool.noConfusion hx
  simp only [generateSamples]
  rw [if_pos hb]

theorem C7_disabled_voice_inert_witness :
    genStDisabled.v.RampCtrl &&& 3 = 3 ∧ genStDisabled.v.WaveCtrl &&& 3 = 3 ∧
    generateSamples volScalarsQ panHardLeft gusRam100 [(1, 2), (3, 4)] genStDisabled =
      ([(1, 2), (3, 4)], genStDisabled) :=
  ⟨by decide, by decide,
   C7_disabled_voice_inert volScalarsQ panHardLeft gusRam100 [(1, 2), (3, 4)] genStDisabled
     (by decide) (by decide)⟩

/-! Claim C10. -/

/-- A write to global register 0x0E overwrites the selected register
index with the high byte of the data word. -/
theorem ExecuteGlobRegister_select0E (s : GusState) (h : s.g.gRegSelect = 0x0E) :
    (ExecuteGlobRegister s).g.gRegSelect = s.g.gRegData >>> 8 := by
  simp only [ExecuteGlobRegister, h]
  norm_num
  split_ifs <;> simp [foldl_mapVoice_g]

/-- C10: writing data `d` through the 16-bit data port while global
register 0x0E (set active voices) is selected also overwrites the
selected register index with `d >> 8`, so the next data-port write
targets register `d >> 8` rather than the previously selected one. -/
theorem C10_reg0E_overwrites_select (s : GusState) (d : ℕ)
    (hs : s.g.gRegSelect = 0x0E) (hd : d < 65536) :
    (write_gus 0x304 d 2 s).g.gRegSelect = d >>> 8 := by
  have hstep : write_gus 0x304 d 2 s =
      ExecuteGlobRegister { s with g := { s.g with gRegData := d % 65536 } } := by
    simp [write_gus]
  rw [hstep, ExecuteGlobRegister_select0E _ (by simpa using hs)]
  simp [Nat.mod_eq_of_lt hd]

theorem C10_reg0E_overwrites_select_witness :
    (write_gus 0x303 0x0E 1 (initState 3 5)).g.gRegSelect = 0x0E ∧ (0x230D : ℕ) < 65536 ∧
    (write_gus 0x304 0x230D 2 (write_gus 0x303 0x0E 1 (initState 3 5))).g.gRegSelect =
      0x230D >>> 8 :=
  ⟨by decide, by decide, C10_reg0E_overwrites_select _ _ (by decide) (by decide)⟩

/-! Claim C2. -/

/-- C2: selecting global register 0x01 and writing a 16-bit frequency `f`
through the data port stores `f` in the selected voice's `WaveFreq` with
`WaveAdd = ceil(f/2)`, and a subsequent 16-bit read of the data port
returns `f` (frequency reads fall into the default case of
`ExecuteReadRegister`, which returns `gRegData`). -/
theorem C2_freq_roundtrip (s : GusState) (c f : ℕ) (hc : s.cur = some c) (hf : f < 65536) :
    (read_gus 0x304 2 (write_gus 0x304 f 2 (write_gus 0x303 0x01 1 s))).2 = f ∧
    ((write_gus 0x304 f 2 (write_gus 0x303 0x01 1 s)).voices c).WaveFreq = f ∧
    ((write_gus 0x304 f 2 (write_gus 0x303 0x01 1 s)).voices c).WaveAdd = (f + 1) / 2 := by
  have hf2 : f % 65536 = f := Nat.mod_eq_of_lt hf
  have hand : f &&& 65535 = f := by
    have h := Nat.and_pow_two_sub_one_eq_mod f 16
    norm_num at h
    rw [h, hf2]
  refine ⟨?_, ?_, ?_⟩ <;>
    simp [write_gus, read_gus, ExecuteGlobRegister, ExecuteReadRegister, withCur, hc,
          mapVoice, setVoice, WriteWaveFreq, ceil_udivide, hf2, hand]

theorem C2_freq_roundtrip_witness :
    (write_gus 0x302 0 1 (initState 3 5)).cur = some 0 ∧ (1000 : ℕ) < 65536 ∧
    ((read_gus 0x304 2 (write_gus 0x304 1000 2
        (write_gus 0x303 0x01 1 (write_gus 0x302 0 1 (initState 3 5))))).2 = 1000 ∧
     ((write_gus 0x304 1000 2
        (write_gus 0x303 0x01 1 (write_gus 0x302 0 1 (initState 3 5)))).voices 0).WaveFreq = 1000 ∧
     ((write_gus 0x304 1000 2
        (write_gus 0x303 0x01 1 (write_gus 0x302 0 1 (initState 3 5)))).voices 0).WaveAdd =
       (1000 + 1) / 2) :=
  ⟨by decide, by decide, C2_freq_roundtrip _ 0 1000 (by decide) (by decide)⟩

/-! Claim C4. -/

theorem CheckVoiceIrq_peak (s : GusState) : (CheckVoiceIrq s).g.peak = s.g.peak := by
  simp only [CheckVoiceIrq]
  split_ifs <;> rfl

/-- C4 counterexample: the claim conditions the limiter's no-op on the
peaks at the *start* of the block, but `SoftLimit` tests the peaks after
the block's voices have accumulated and updated them.  Here the peaks
start at (1, 1), far below `INT16_MAX - 1`, yet two loud voices push the
left accumulator to 65024, so the block is scaled (emitting 32766, not
the truncation 65024) and `peak_amplitude.left` is decremented. -/
theorem C4_counterexample :
    stateTwoLoud.g.peak.1 < 32766 ∧ stateTwoLoud.g.peak.2 < 32766 ∧
    (GUS_CallBack volScalarsQ panHardLeft 1 stateTwoLoud).2 ≠
      (mixVoices volScalarsQ panHardLeft 1 stateTwoLoud).1.map
        (fun fr => (ratTrunc fr.1, ratTrunc fr.2)) ∧
    (GUS_CallBack volScalarsQ panHardLeft 1 stateTwoLoud).1.g.peak.1 ≠
      (mixVoices volScalarsQ panHardLeft 1 stateTwoLoud).2.g.peak.1 := by
  have hrange : List.range 2 = [0, 1] := by decide
  have hmix : (mixVoices volScalarsQ panHardLeft 1 stateTwoLoud).1 = [(65024, 0)] ∧
      (mixVoices volScalarsQ panHardLeft 1 stateTwoLoud).2.g.peak = (65024, 1) := by
    constructor <;>
      norm_num [mixVoices, generateSamples, genLoop, genFrame, GetSample8, WaveUpdate,
                RampUpdate, incGenerated, setVoice, stateTwoLoud, voiceLoud, mkVoice,
                int8val, volScalarsQ, panHardLeft, u32, i32ofU32, hrange,
                List.foldl_cons, List.foldl_nil]
  have hcb : (GUS_CallBack volScalarsQ panHardLeft 1 stateTwoLoud).2 = [(32766, 0)] ∧
      (GUS_CallBack volScalarsQ panHardLeft 1 stateTwoLoud).1.g.peak.1 =
        65024 - 32766 * (1002709201 / 1000000000 - 1) := by
    have hsl : SoftLimit (mixVoices volScalarsQ panHardLeft 1 stateTwoLoud).2.g.peak
        (mixVoices volScalarsQ panHardLeft 1 stateTwoLoud).1 =
        some ((65024 - 32766 * (1002709201 / 1000000000 - 1), 1), [(32766, 0)]) := by
      rw [hmix.1, hmix.2]
      norm_num [SoftLimit, ratTrunc, min_def]
    constructor <;> simp only [GUS_CallBack, hsl, CheckVoiceIrq_peak]
  refine ⟨by norm_num [stateTwoLoud], by norm_num [stateTwoLoud], ?_, ?_⟩
  · rw [hcb.1, hmix.1]
    norm_num [ratTrunc]
  · rw [hcb.2, hmix.2]
    norm_num

/-- C4 (amended): the soft limiter is a bit-exact no-op — plain
truncation of every accumulator value and untouched peak amplitudes —
whenever both peaks are strictly below `INT16_MAX - 1` *at the moment
`SoftLimit` runs*, i.e. after the block's voices have accumulated and
updated the peaks (not at the start of the block). -/
theorem C4_softlimit_noop (vol : ℕ → ℚ) (pan : ℕ → ℚ × ℚ) (len : ℕ) (s : GusState)
    (h1 : (mixVoices vol pan len s).2.g.peak.1 < 32766)
    (h2 : (mixVoices vol pan len s).2.g.peak.2 < 32766) :
    (GUS_CallBack vol pan len s).2 =
      (mixVoices vol pan len s).1.map (fun fr => (ratTrunc fr.1, ratTrunc fr.2)) ∧
    (GUS_CallBack vol pan len s).1.g.peak = (mixVoices vol pan len s).2.g.peak := by
  have hsl : SoftLimit (mixVoices vol pan len s).2.g.peak (mixVoices vol pan len s).1 = none := by
    simp only [SoftLimit]
    rw [if_pos ⟨h1, h2⟩]
  constructor <;> simp only [GUS_CallBack, hsl, CheckVoiceIrq_peak]

theorem testBit7_and_7f (x : ℕ) : (x &&& 0x7f).testBit 7 = false := by
  rw [Nat.testBit_and]
  have h : Nat.testBit 0x7f 7 = false := by decide
  rw [h, Bool.and_false]

theorem testBit7_or_one (x : ℕ) : (x ||| 1).testBit 7 = x.testBit 7 := by
  rw [Nat.testBit_or]
  have h : Nat.testBit 1 7 = false := by decide
  rw [h, Bool.or_false]

theorem testBit7_xor_40 (x : ℕ) : (x ^^^ 0x40).testBit 7 = x.testBit 7 := by
  rw [Nat.testBit_xor]
  have h : Nat.testBit 0x40 7 = false := by decide
  rw [h, Bool.xor_false]

theorem WaveUpdate_VoiceOk (i : ℕ) (v : Voice) (w : ℕ) (h : VoiceOk i v) :
    VoiceOk i (WaveUpdate v w).1 := by
  obtain ⟨h1, h2, h3⟩ := h
  have e64 : Nat.testBit 64 7 = false := by decide
  have e1 : Nat.testBit 1 7 = false := by decide
  simp only [WaveUpdate, VoiceOk]
  split_ifs <;> simp_all [Nat.testBit_or, Nat.testBit_xor, e64, e1]

theorem RampUpdate_VoiceOk (i : ℕ) (v : Voice) (r : ℕ) (h : VoiceOk i v) :
    VoiceOk i (RampUpdate v r).1 := by
  obtain ⟨h1, h2, h3⟩ := h
  have e64 : Nat.testBit 64 7 = false := by decide
  have e1 : Nat.testBit 1 7 = false := by decide
  simp only [RampUpdate, VoiceOk]
  split_ifs <;> simp_all [Nat.testBit_or, Nat.testBit_xor, e64, e1]

theorem genFrame_VoiceOk (vol : ℕ → ℚ) (pan : ℕ → ℚ × ℚ) (ram : ℕ → ℕ) (fr : ℚ × ℚ)
    (g : GenSt) (i : ℕ) (h : VoiceOk i g.v) :
    VoiceOk i ((genFrame vol pan ram fr g).2).v := by
  simp only [genFrame]
  exact RampUpdate_VoiceOk _ _ _ (WaveUpdate_VoiceOk _ _ _ h)

theorem genLoop_VoiceOk (vol : ℕ → ℚ) (pan : ℕ → ℚ × ℚ) (ram : ℕ → ℕ) (i : ℕ) :
    ∀ (acc : List (ℚ × ℚ)) (g : GenSt), VoiceOk i g.v →
      VoiceOk i ((genLoop vol pan ram acc g).2).v := by
  intro acc
  induction acc with
  | nil => intro g h; exact h
  | cons fr rest ih =>
    intro g h
    simp only [genLoop]
    exact ih _ (genFrame_VoiceOk vol pan ram fr g i h)

theorem incGenerated_VoiceOk (i : ℕ) (v : Voice) (h : VoiceOk i v) :
    VoiceOk i (incGenerated v) := by
  simp only [incGenerated]
  split_ifs <;> exact h

theorem generateSamples_VoiceOk (vol : ℕ → ℚ) (pan : ℕ → ℚ × ℚ) (ram : ℕ → ℕ)
    (acc : List (ℚ × ℚ)) (g : GenSt) (i : ℕ) (h : VoiceOk i g.v) :
    VoiceOk i ((generateSamples vol pan ram acc g).2).v := by
  simp only [generateSamples]
  split_ifs
  · exact h
  · exact incGenerated_VoiceOk _ _ (genLoop_VoiceOk vol pan ram i acc g h)

theorem CheckVoiceIrq_voices (s : GusState) : (CheckVoiceIrq s).voices = s.voices := by
  simp only [CheckVoiceIrq]
  split_ifs <;> rfl

theorem CheckVoiceIrq_ActiveChannels (s : GusState) :
    (CheckVoiceIrq s).g.ActiveChannels = s.g.ActiveChannels := by
  simp only [CheckVoiceIrq]
  split_ifs <;> rfl

theorem CheckVoiceIrq_ActiveMask (s : GusState) :
    (CheckVoiceIrq s).g.ActiveMask = s.g.ActiveMask := by
  simp only [CheckVoiceIrq]
  split_ifs <;> rfl

theorem CheckVoiceIrq_StateInv (s : GusState) (h : StateInv s) : StateInv (CheckVoiceIrq s) := by
  obtain ⟨h1, h2, h3⟩ := h
  refine ⟨?_, ?_, ?_⟩
  · rw [CheckVoiceIrq_ActiveChannels]; exact h1
  · rw [CheckVoiceIrq_ActiveMask, CheckVoiceIrq_ActiveChannels]; exact h2
  · rw [CheckVoiceIrq_voices]; exact h3

theorem stWriteWaveCtrl_StateInv (i val : ℕ) (s : GusState) (h : StateInv s) :
    StateInv (stWriteWaveCtrl i val s) := by
  obtain ⟨h1, h2, h3⟩ := h
  simp only [stWriteWaveCtrl, setVoice]
  split_ifs
  all_goals {
    first
    | apply CheckVoiceIrq_StateInv
    | skip
    refine ⟨h1, h2, fun j => ?_⟩
    dsimp only
    split_ifs with hj
    · subst hj
      exact ⟨testBit7_and_7f _, (h3 j).2.1, (h3 j).2.2⟩
    · exact h3 j }

theorem stWriteRampCtrl_StateInv (i val : ℕ) (s : GusState) (h : StateInv s) :
    StateInv (stWriteRampCtrl i val s) := by
  obtain ⟨h1, h2, h3⟩ := h
  simp only [stWriteRampCtrl, setVoice]
  split_ifs
  all_goals {
    first
    | apply CheckVoiceIrq_StateInv
    | skip
    refine ⟨h1, h2, fun j => ?_⟩
    dsimp only
    split_ifs with hj
    · subst hj
      exact ⟨(h3 j).1, testBit7_and_7f _, (h3 j).2.2⟩
    · exact h3 j }

/-- A voice transform that keeps `VoiceOk` lifts to `mapVoice`. -/
theorem mapVoice_StateInv (i : ℕ) (f : Voice → Voice) (s : GusState)
    (hf : ∀ j v, VoiceOk j v → VoiceOk j (f v)) (h : StateInv s) :
    StateInv (mapVoice i f s) := by
  obtain ⟨h1, h2, h3⟩ := h
  refine ⟨h1, h2, ?_⟩
  intro j
  simp only [mapVoice, setVoice]
  by_cases hji : j = i
  · subst hji; simp only [if_pos rfl]; exact hf j _ (h3 j)
  · simp only [if_neg hji]; exact h3 j

theorem withCur_StateInv (s : GusState) (f : ℕ → GusState)
    (hf : ∀ c, StateInv (f c)) (h : StateInv s) : StateInv (withCur s f) := by
  unfold withCur
  cases s.cur with
  | none => exact h
  | some c => exact hf c

theorem foldl_StateInv (f : GusState → ℕ → GusState)
    (hf : ∀ t i, StateInv t → StateInv (f t i)) :
    ∀ (l : List ℕ) (s : GusState), StateInv s → StateInv (l.foldl f s) := by
  intro l
  induction l with
  | nil => intro s h; exact h
  | cons a l ih => intro s h; exact ih _ (hf s a h)

theorem shiftMask_eq (n : ℕ) (h : n ≤ 32) : 0xffffffff >>> (32 - n) = 2 ^ n - 1 := by
  interval_cases n <;> decide

theorem clampNat_mem (x : ℕ) : 14 ≤ clampNat x 14 32 ∧ clampNat x 14 32 ≤ 32 := by
  unfold clampNat
  omega

set_option maxRecDepth 8000
set_option maxHeartbeats 1600000

theorem resetChannel_StateInv (s : GusState) (i : ℕ) (h : StateInv s) :
    StateInv (resetChannel s i) :=
  mapVoice_StateInv _ _ _ (fun _ _ hv => hv)
    (mapVoice_StateInv _ _ _ (fun _ _ hv => hv)
      (stWriteRampCtrl_StateInv _ _ _
        (stWriteWaveCtrl_StateInv _ _ _
          (mapVoice_StateInv _ _ _ (fun _ _ hv => hv) h))))

theorem StateInv_ite (c : Prop) [Decidable c] (a b : GusState)
    (ha : StateInv a) (hb : StateInv b) : StateInv (if c then a else b) := by
  split_ifs
  · exact ha
  · exact hb

theorem StateInv_ite_fst (c : Prop) [Decidable c] (a b : GusState × ℕ)
    (ha : StateInv a.1) (hb : StateInv b.1) : StateInv (if c then a else b).1 := by
  split_ifs
  · exact ha
  · exact hb

theorem finishReset_StateInv (s : GusState) (h : StateInv s) : StateInv (finishReset s) :=
  ⟨h.1, h.2.1, h.2.2⟩

theorem setIrqEnabled_StateInv (s : GusState) (h : StateInv s) : StateInv (setIrqEnabled s) :=
  ⟨h.1, h.2.1, h.2.2⟩

theorem clearRegData_StateInv (s : GusState) (h : StateInv s) : StateInv (clearRegData s) :=
  ⟨h.1, h.2.1, h.2.2⟩

theorem resetGlobals_StateInv (s : GusState) (h : StateInv s) : StateInv (resetGlobals s) :=
  ⟨h.1, h.2.1, h.2.2⟩

theorem GUSReset_StateInv (s : GusState) (h : StateInv s) : StateInv (GUSReset s) := by
  unfold GUSReset
  apply setIrqEnabled_StateInv
  apply StateInv_ite
  · apply finishReset_StateInv
    apply foldl_StateInv
    · intro t i ht
      exact resetChannel_StateInv t i ht
    · exact resetGlobals_StateInv s h
  · exact h

theorem ExecuteGlobRegister_StateInv (s : GusState) (h : StateInv s) :
    StateInv (ExecuteGlobRegister s) := by
  obtain ⟨h1, h2, h3⟩ := h
  unfold ExecuteGlobRegister
  dsimp only
  by_cases e0 : s.g.gRegSelect = 0x0
  · rw [if_pos e0]
    exact withCur_StateInv _ _ (fun c => stWriteWaveCtrl_StateInv _ _ _ ⟨h1, h2, h3⟩) ⟨h1, h2, h3⟩
  rw [if_neg e0]
  by_cases e1 : s.g.gRegSelect = 0x1
  · rw [if_pos e1]
    exact withCur_StateInv _ _ (fun c => mapVoice_StateInv _ _ _ (fun _ _ hv => hv) ⟨h1, h2, h3⟩) ⟨h1, h2, h3⟩
  rw [if_neg e1]
  by_cases e2 : s.g.gRegSelect = 0x2
  · rw [if_pos e2]
    exact withCur_StateInv _ _ (fun c => mapVoice_StateInv _ _ _ (fun _ _ hv => hv) ⟨h1, h2, h3⟩) ⟨h1, h2, h3⟩
  rw [if_neg e2]
  by_cases e3 : s.g.gRegSelect = 0x3
  · rw [if_pos e3]
    exact withCur_StateInv _ _ (fun c => mapVoice_StateInv _ _ _ (fun _ _ hv => hv) ⟨h1, h2, h3⟩) ⟨h1, h2, h3⟩
  rw [if_neg e3]
  by_cases e4 : s.g.gRegSelect = 0x4
  · rw [if_pos e4]
    exact withCur_StateInv _ _ (fun c => mapVoice_StateInv _ _ _ (fun _ _ hv => hv) ⟨h1, h2, h3⟩) ⟨h1, h2, h3⟩
  rw [if_neg e4]
  by_cases e5 : s.g.gRegSelect = 0x5
  · rw [if_pos e5]
    exact withCur_StateInv _ _ (fun c => mapVoice_StateInv _ _ _ (fun _ _ hv => hv) ⟨h1, h2, h3⟩) ⟨h1, h2, h3⟩
  rw [if_neg e5]
  by_cases e6 : s.g.gRegSelect = 0x6
  · rw [if_pos e6]
    exact withCur_StateInv _ _ (fun c => mapVoice_StateInv _ _ _ (fun _ _ hv => hv) ⟨h1, h2, h3⟩) ⟨h1, h2, h3⟩
  rw [if_neg e6]
  by_cases e7 : s.g.gRegSelect = 0x7
  · rw [if_pos e7]
    exact withCur_StateInv _ _ (fun c => mapVoice_StateInv _ _ _ (fun _ _ hv => hv) ⟨h1, h2, h3⟩) ⟨h1, h2, h3⟩
  rw [if_neg e7]
  by_cases e8 : s.g.gRegSelect = 0x8
  · rw [if_pos e8]
    exact withCur_StateInv _ _ (fun c => mapVoice_StateInv _ _ _ (fun _ _ hv => hv) ⟨h1, h2, h3⟩) ⟨h1, h2, h3⟩
  rw [if_neg e8]
  by_cases e9 : s.g.gRegSelect = 0x9
  · rw [if_pos e9]
    exact withCur_StateInv _ _ (fun c => mapVoice_StateInv _ _ _ (fun _ _ hv => hv) ⟨h1, h2, h3⟩) ⟨h1, h2, h3⟩
  rw [if_neg e9]
  by_cases e10 : s.g.gRegSelect = 0xA
  · rw [if_pos e10]
    exact withCur_StateInv _ _ (fun c => mapVoice_StateInv _ _ _ (fun _ _ hv => hv) ⟨h1, h2, h3⟩) ⟨h1, h2, h3⟩
  rw [if_neg e10]
  by_cases e11 : s.g.gRegSelect = 0xB
  · rw [if_pos e11]
    exact withCur_StateInv _ _ (fun c => mapVoice_StateInv _ _ _ (fun _ _ hv => hv) ⟨h1, h2, h3⟩) ⟨h1, h2, h3⟩
  rw [if_neg e11]
  by_cases e12 : s.g.gRegSelect = 0xC
  · rw [if_pos e12]
    exact withCur_StateInv _ _ (fun c => mapVoice_StateInv _ _ _ (fun _ _ hv => hv) ⟨h1, h2, h3⟩) ⟨h1, h2, h3⟩
  rw [if_neg e12]
  by_cases e13 : s.g.gRegSelect = 0xD
  · rw [if_pos e13]
    exact withCur_StateInv _ _ (fun c => stWriteRampCtrl_StateInv _ _ _ ⟨h1, h2, h3⟩) ⟨h1, h2, h3⟩
  rw [if_neg e13]
  by_cases e14 : s.g.gRegSelect = 0xE
  · rw [if_pos e14]
    apply foldl_StateInv
    · intro t i ht
      exact mapVoice_StateInv _ _ _ (fun _ _ hv => hv) ht
    · apply StateInv_ite
      · exact ⟨Or.inr (clampNat_mem _), shiftMask_eq _ (clampNat_mem _).2, h3⟩
      · exact ⟨h1, h2, h3⟩
  rw [if_neg e14]
  by_cases e15 : s.g.gRegSelect = 0x10
  · rw [if_pos e15]
    exact ⟨h1, h2, h3⟩
  rw [if_neg e15]
  by_cases e16 : s.g.gRegSelect = 0x41
  · rw [if_pos e16]
    exact ⟨h1, h2, h3⟩
  rw [if_neg e16]
  by_cases e17 : s.g.gRegSelect = 0x42
  · rw [if_pos e17]
    exact ⟨h1, h2, h3⟩
  rw [if_neg e17]
  by_cases e18 : s.g.gRegSelect = 0x43
  · rw [if_pos e18]
    exact ⟨h1, h2, h3⟩
  rw [if_neg e18]
  by_cases e19 : s.g.gRegSelect = 0x44
  · rw [if_pos e19]
    exact ⟨h1, h2, h3⟩
  rw [if_neg e19]
  by_cases e20 : s.g.gRegSelect = 0x45
  · rw [if_pos e20]
    split_ifs <;> exact ⟨h1, h2, h3⟩
  rw [if_neg e20]
  by_cases e21 : s.g.gRegSelect = 0x46
  · rw [if_pos e21]
    exact ⟨h1, h2, h3⟩
  rw [if_neg e21]
  by_cases e22 : s.g.gRegSelect = 0x47
  · rw [if_pos e22]
    exact ⟨h1, h2, h3⟩
  rw [if_neg e22]
  by_cases e23 : s.g.gRegSelect = 0x49
  · rw [if_pos e23]
    exact ⟨h1, h2, h3⟩
  rw [if_neg e23]
  by_cases e24 : s.g.gRegSelect = 0x4c
  · rw [if_pos e24]
    exact GUSReset_StateInv _ ⟨h1, h2, h3⟩
  rw [if_neg e24]
  exact ⟨h1, h2, h3⟩

theorem write_gus_StateInv (port val iolen : ℕ) (s : GusState) (h : StateInv s) :
    StateInv (write_gus port val iolen s) := by
  obtain ⟨h1, h2, h3⟩ := h
  unfold write_gus
  dsimp only
  by_cases e0 : port = 0x200
  · rw [if_pos e0]
    exact ⟨h1, h2, h3⟩
  rw [if_neg e0]
  by_cases e1 : port = 0x208
  · rw [if_pos e1]
    exact ⟨h1, h2, h3⟩
  rw [if_neg e1]
  by_cases e2 : port = 0x209
  · rw [if_pos e2]
    split_ifs <;> exact ⟨h1, h2, h3⟩
  rw [if_neg e2]
  by_cases e3 : port = 0x20b
  · rw [if_pos e3]
    split_ifs <;> exact ⟨h1, h2, h3⟩
  rw [if_neg e3]
  by_cases e4 : port = 0x302
  · rw [if_pos e4]
    exact ⟨h1, h2, h3⟩
  rw [if_neg e4]
  by_cases e5 : port = 0x303
  · rw [if_pos e5]
    exact ⟨h1, h2, h3⟩
  rw [if_neg e5]
  by_cases e6 : port = 0x304
  · rw [if_pos e6]
    split_ifs
    · exact ExecuteGlobRegister_StateInv _ ⟨h1, h2, h3⟩
    · exact ⟨h1, h2, h3⟩
  rw [if_neg e6]
  by_cases e7 : port = 0x305
  · rw [if_pos e7]
    exact ExecuteGlobRegister_StateInv _ ⟨h1, h2, h3⟩
  rw [if_neg e7]
  by_cases e8 : port = 0x307
  · rw [if_pos e8]
    split_ifs <;> exact ⟨h1, h2, h3⟩
  rw [if_neg e8]
  exact ⟨h1, h2, h3⟩

theorem ExecuteReadRegister_StateInv (s : GusState) (h : StateInv s) :
    StateInv (ExecuteReadRegister s).1 := by
  obtain ⟨h1, h2, h3⟩ := h
  unfold ExecuteReadRegister
  dsimp only
  by_cases e0 : s.g.gRegSelect = 0x41
  · rw [if_pos e0]
    exact ⟨h1, h2, h3⟩
  rw [if_neg e0]
  by_cases e1 : s.g.gRegSelect = 0x42
  · rw [if_pos e1]
    exact ⟨h1, h2, h3⟩
  rw [if_neg e1]
  by_cases e2 : s.g.gRegSelect = 0x45
  · rw [if_pos e2]
    exact ⟨h1, h2, h3⟩
  rw [if_neg e2]
  by_cases e3 : s.g.gRegSelect = 0x49
  · rw [if_pos e3]
    exact ⟨h1, h2, h3⟩
  rw [if_neg e3]
  by_cases e4 : s.g.gRegSelect = 0x80
  · rw [if_pos e4]
    exact ⟨h1, h2, h3⟩
  rw [if_neg e4]
  by_cases e5 : s.g.gRegSelect = 0x82
  · rw [if_pos e5]
    exact ⟨h1, h2, h3⟩
  rw [if_neg e5]
  by_cases e6 : s.g.gRegSelect = 0x83
  · rw [if_pos e6]
    exact ⟨h1, h2, h3⟩
  rw [if_neg e6]
  by_cases e7 : s.g.gRegSelect = 0x89
  · rw [if_pos e7]
    exact ⟨h1, h2, h3⟩
  rw [if_neg e7]
  by_cases e8 : s.g.gRegSelect = 0x8a
  · rw [if_pos e8]
    exact ⟨h1, h2, h3⟩
  rw [if_neg e8]
  by_cases e9 : s.g.gRegSelect = 0x8b
  · rw [if_pos e9]
    exact ⟨h1, h2, h3⟩
  rw [if_neg e9]
  by_cases e10 : s.g.gRegSelect = 0x8d
  · rw [if_pos e10]
    exact ⟨h1, h2, h3⟩
  rw [if_neg e10]
  by_cases e11 : s.g.gRegSelect = 0x8f
  · rw [if_pos e11]
    exact CheckVoiceIrq_StateInv _ ⟨h1, h2, h3⟩
  rw [if_neg e11]
  exact ⟨h1, h2, h3⟩

theorem read_gus_StateInv (port iolen : ℕ) (s : GusState) (h : StateInv s) :
    StateInv (read_gus port iolen s).1 := by
  unfold read_gus
  dsimp only
  by_cases e0 : port = 0x206
  · rw [if_pos e0]
    exact h
  rw [if_neg e0]
  by_cases e1 : port = 0x208
  · rw [if_pos e1]
    exact h
  rw [if_neg e1]
  by_cases e2 : port = 0x20a
  · rw [if_pos e2]
    exact h
  rw [if_neg e2]
  by_cases e3 : port = 0x302
  · rw [if_pos e3]
    exact h
  rw [if_neg e3]
  by_cases e4 : port = 0x303
  · rw [if_pos e4]
    exact h
  rw [if_neg e4]
  by_cases e5 : port = 0x304
  · rw [if_pos e5]
    split_ifs <;> exact ExecuteReadRegister_StateInv _ h
  rw [if_neg e5]
  by_cases e6 : port = 0x305
  · rw [if_pos e6]
    exact ExecuteReadRegister_StateInv _ h
  rw [if_neg e6]
  by_cases e7 : port = 0x307
  · rw [if_pos e7]
    split_ifs <;> exact h
  rw [if_neg e7]
  exact h

theorem foldlPair_StateInv (f : (List (ℚ × ℚ) × GusState) → ℕ → List (ℚ × ℚ) × GusState)
    (hf : ∀ p i, StateInv p.2 → StateInv (f p i).2) :
    ∀ (l : List ℕ) (p : List (ℚ × ℚ) × GusState), StateInv p.2 → StateInv (l.foldl f p).2 := by
  intro l
  induction l with
  | nil => intro p hp; exact hp
  | cons a l ih => intro p hp; exact ih _ (hf p a hp)

theorem mixVoices_StateInv (vol : ℕ → ℚ) (pan : ℕ → ℚ × ℚ) (len : ℕ) (s : GusState)
    (h : StateInv s) : StateInv (mixVoices vol pan len s).2 := by
  simp only [mixVoices]
  apply foldlPair_StateInv
  · intro p i hp
    obtain ⟨hp1, hp2, hp3⟩ := hp
    dsimp only
    refine ⟨hp1, hp2, fun j => ?_⟩
    simp only [setVoice]
    split_ifs with hj
    · subst hj
      exact generateSamples_VoiceOk _ _ _ _ _ _ (hp3 j)
    · exact hp3 j
  · exact h

theorem GUS_CallBack_StateInv (vol : ℕ → ℚ) (pan : ℕ → ℚ × ℚ) (len : ℕ) (s : GusState)
    (h : StateInv s) : StateInv (GUS_CallBack vol pan len s).1 := by
  have hmix := mixVoices_StateInv vol pan len s h
  simp only [GUS_CallBack]
  rcases hSL : SoftLimit (mixVoices vol pan len s).2.g.peak (mixVoices vol pan len s).1 with _ | q
  · exact CheckVoiceIrq_StateInv _ hmix
  · exact CheckVoiceIrq_StateInv _ ⟨hmix.1, hmix.2.1, hmix.2.2⟩

theorem timerEvent_StateInv (i : Bool) (s : GusState) (h : StateInv s) :
    StateInv (timerEvent i s) := by
  obtain ⟨h1, h2, h3⟩ := h
  simp only [timerEvent]
  split_ifs <;> exact ⟨h1, h2, h3⟩

theorem dmaEffect_StateInv (newRam : ℕ → ℕ) (s : GusState) (h : StateInv s) :
    StateInv (dmaEffect newRam s) := by
  obtain ⟨h1, h2, h3⟩ := h
  simp only [dmaEffect]
  split_ifs <;> exact ⟨h1, h2, h3⟩

theorem mkVoice_VoiceOk (i : ℕ) : VoiceOk i (mkVoice i) := by
  have hb : Nat.testBit 3 7 = false := by decide
  exact ⟨hb, hb, rfl⟩

theorem initState_StateInv (dV iV : ℕ) : StateInv (initState dV iV) := by
  unfold initState
  apply clearRegData_StateInv
  apply GUSReset_StateInv
  exact ⟨Or.inl rfl, rfl, fun i => mkVoice_VoiceOk i⟩

theorem Step_StateInv (vol : ℕ → ℚ) (pan : ℕ → ℚ × ℚ) {s t : GusState}
    (hst : Step vol pan s t) (h : StateInv s) : StateInv t := by
  cases hst with
  | write port val iolen => exact write_gus_StateInv port val iolen s h
  | read port iolen => exact read_gus_StateInv port iolen s h
  | mix len hlen => exact GUS_CallBack_StateInv vol pan len s h
  | timer i => exact timerEvent_StateInv i s h
  | dmaTransfer newRam => exact dmaEffect_StateInv newRam s h

/-- Every reachable state satisfies the structural invariant. -/
theorem reachable_StateInv (vol : ℕ → ℚ) (pan : ℕ → ℚ × ℚ) (dV iV : ℕ) (s : GusState)
    (h : Reachable vol pan dV iV s) : StateInv s := by
  induction h with
  | refl => exact initState_StateInv dV iV
  | tail hab hbc ih => exact Step_StateInv vol pan hbc ih

/-! Claim C5. -/

/-- C5 counterexample: right after construction the engine is reachable
with `ActiveChannels = 0`, outside the claimed range [14, 32] (no write
to register 0x0E has happened yet, and `GUSReset` does not initialize the
active-voice count). -/
theorem C5_counterexample :
    Reachable volScalarsQ panHardLeft 3 5 (initState 3 5) ∧
    ¬(14 ≤ (initState 3 5).g.ActiveChannels ∧ (initState 3 5).g.ActiveChannels ≤ 32) :=
  ⟨Relation.ReflTransGen.refl, by decide⟩

/-- C5 (amended): at every reachable state the active-voice count is
either 0 (its value from construction until the first write to global
register 0x0E) or in [14, 32]; and `ActiveMask` always has exactly
`ActiveChannels` low bits set (`ActiveMask = 2^ActiveChannels - 1`). -/
theorem C5_active_range (vol : ℕ → ℚ) (pan : ℕ → ℚ × ℚ) (dV iV : ℕ) (s : GusState)
    (h : Reachable vol pan dV iV s) :
    (s.g.ActiveChannels = 0 ∨ (14 ≤ s.g.ActiveChannels ∧ s.g.ActiveChannels ≤ 32)) ∧
    s.g.ActiveMask = 2 ^ s.g.ActiveChannels - 1 := by
  have hi := reachable_StateInv vol pan dV iV s h
  exact ⟨hi.1, hi.2.1⟩

theorem C5_active_range_witness :
    Reachable volScalarsQ panHardLeft 3 5 (initState 3 5) ∧
    (((initState 3 5).g.ActiveChannels = 0 ∨
        (14 ≤ (initState 3 5).g.ActiveChannels ∧ (initState 3 5).g.ActiveChannels ≤ 32)) ∧
      (initState 3 5).g.ActiveMask = 2 ^ (initState 3 5).g.ActiveChannels - 1) :=
  ⟨Relation.ReflTransGen.refl,
   C5_active_range volScalarsQ panHardLeft 3 5 (initState 3 5) Relation.ReflTransGen.refl⟩

/-! Claim C9. -/

theorem and_one_shiftLeft_eq_zero_iff (x i : ℕ) :
    x &&& (1 <<< i) = 0 ↔ x.testBit i = false := by
  rw [Nat.shiftLeft_eq, one_mul, Nat.and_two_pow]
  cases hb : x.testBit i
  · simp
  · have hp : 2 ^ i ≠ 0 := Nat.pos_iff_ne_zero.mp (Nat.pos_pow_of_pos i (by norm_num))
    simp [hp]

/-- C9: in every reachable state, the stored `wave_ctrl` and `ramp_ctrl`
bytes of every voice have bit 7 clear (host writes mask with 0x7F and
boundary handling only ever sets bit 0 or toggles bit 6), while host
reads of the two control registers report bit 7 as the voice's bit in
the aggregator's `WaveIRQ` / `RampIRQ` bitmap. -/
theorem C9_ctrl_bit7 (vol : ℕ → ℚ) (pan : ℕ → ℚ × ℚ) (dV iV : ℕ) (s : GusState) (i : ℕ)
    (h : Reachable vol pan dV iV s) (hi : i < 32) :
    (s.voices i).WaveCtrl.testBit 7 = false ∧
    (s.voices i).RampCtrl.testBit 7 = false ∧
    (stReadWaveCtrl i s).testBit 7 = s.g.WaveIRQ.testBit i ∧
    (stReadRampCtrl i s).testBit 7 = s.g.RampIRQ.testBit i := by
  have hinv := reachable_StateInv vol pan dV iV s h
  obtain ⟨hw7, hr7, hch⟩ := hinv.2.2 i
  refine ⟨hw7, hr7, ?_, ?_⟩
  · unfold stReadWaveCtrl
    rw [hch]
    cases hb : s.g.WaveIRQ.testBit i
    · rw [if_neg (by simp [and_one_shiftLeft_eq_zero_iff, hb])]
      exact hw7
    · rw [if_pos (by simp [Ne, and_one_shiftLeft_eq_zero_iff, hb])]
      rw [Nat.testBit_or]
      have h80 : Nat.testBit 0x80 7 = true := by decide
      rw [h80, Bool.or_true]
  · unfold stReadRampCtrl
    rw [hch]
    cases hb : s.g.RampIRQ.testBit i
    · rw [if_neg (by simp [and_one_shiftLeft_eq_zero_iff, hb])]
      exact hr7
    · rw [if_pos (by simp [Ne, and_one_shiftLeft_eq_zero_iff, hb])]
      rw [Nat.testBit_or]
      have h80 : Nat.testBit 0x80 7 = true := by decide
      rw [h80, Bool.or_true]

theorem C9_ctrl_bit7_witness :
    Reachable volScalarsQ panHardLeft 3 5 (initState 3 5) ∧ (0 : ℕ) < 32 ∧
    (((initState 3 5).voices 0).WaveCtrl.testBit 7 = false ∧
     ((initState 3 5).voices 0).RampCtrl.testBit 7 = false ∧
     (stReadWaveCtrl 0 (initState 3 5)).testBit 7 = (initState 3 5).g.WaveIRQ.testBit 0 ∧
     (stReadRampCtrl 0 (initState 3 5)).testBit 7 = (initState 3 5).g.RampIRQ.testBit 0) :=
  ⟨Relation.ReflTransGen.refl, by decide,
   C9_ctrl_bit7 volScalarsQ panHardLeft 3 5 (initState 3 5) 0 Relation.ReflTransGen.refl
     (by decide)⟩

set_option maxRecDepth 4000 in
theorem C4_softlimit_noop_witness :
    (mixVoices volScalarsQ panHardLeft 0 (initState 3 5)).2.g.peak.1 < 32766 ∧
    (mixVoices volScalarsQ panHardLeft 0 (initState 3 5)).2.g.peak.2 < 32766 ∧
    ((GUS_CallBack volScalarsQ panHardLeft 0 (initState 3 5)).2 =
      (mixVoices volScalarsQ panHardLeft 0 (initState 3 5)).1.map
        (fun fr => (ratTrunc fr.1, ratTrunc fr.2)) ∧
     (GUS_CallBack volScalarsQ panHardLeft 0 (initState 3 5)).1.g.peak =
      (mixVoices volScalarsQ panHardLeft 0 (initState 3 5)).2.g.peak) :=
  ⟨by decide, by decide,
   C4_softlimit_noop volScalarsQ panHardLeft 0 (initState 3 5) (by decide) (by decide)⟩

/-! C8 infrastructure: draining voice IRQs through register 0x8F. -/

theorem advanceChan_reach (t act : ℕ) :
    ∀ fuel chan j, chan ≤ j → j < act → t.testBit j = true → j - chan < fuel →
      t.testBit (advanceChan t fuel chan act) = true := by
  intro fuel
  induction fuel with
  | zero => intro chan j _ _ _ h; omega
  | succ fuel ih =>
    intro chan j hcj hja hbit hfu
    by_cases hc : t.testBit chan = true
    · simp [advanceChan, hc]
    · have hne : chan ≠ j := fun he => hc (he ▸ hbit)
      have hwrap : ¬ act ≤ chan + 1 := by omega
      rw [Bool.not_eq_true] at hc
      simp only [advanceChan, hc, Bool.false_eq_true, if_false]
      rw [if_neg hwrap]
      exact ih (chan + 1) j (by omega) hja hbit (by omega)

theorem advanceChan_finds (t act : ℕ) (hact : act ≤ 32)
    (hex : ∃ j, j < act ∧ t.testBit j = true) :
    ∀ fuel chan, act - chan + 34 ≤ fuel →
      t.testBit (advanceChan t fuel chan act) = true := by
  intro fuel
  induction fuel with
  | zero => intro chan h; omega
  | succ fuel ih =>
    intro chan hfu
    obtain ⟨j, hja, hbit⟩ := hex
    by_cases hc : t.testBit chan = true
    · simp [advanceChan, hc]
    · rw [Bool.not_eq_true] at hc
      simp only [advanceChan, hc, Bool.false_eq_true, if_false]
      by_cases hwrap : act ≤ chan + 1
      · rw [if_pos hwrap]
        exact advanceChan_reach t act fuel 0 j (Nat.zero_le j) hja hbit (by omega)
      · rw [if_neg hwrap]
        exact ih (chan + 1) (by omega)

theorem totalmask_testBit_lt (s : GusState)
    (hM : s.g.ActiveMask = 2 ^ s.g.ActiveChannels - 1)
    (j : ℕ) (hbit : (totalmask s).testBit j = true) : j < s.g.ActiveChannels := by
  rw [totalmask, hM, Nat.testBit_and, Nat.testBit_two_pow_sub_one, Bool.and_eq_true] at hbit
  simpa using hbit.2

theorem totalmask_testBit_hi (s : GusState)
    (hM : s.g.ActiveMask = 2 ^ s.g.ActiveChannels - 1) (hact : s.g.ActiveChannels ≤ 32)
    (j : ℕ) (hj : 32 ≤ j) : (totalmask s).testBit j = false := by
  cases hx : (totalmask s).testBit j
  · rfl
  · have := totalmask_testBit_lt s hM j hx
    omega

theorem exists_testBit_of_ne_zero (x : ℕ) (h : x ≠ 0) : ∃ i, x.testBit i = true := by
  by_contra hc
  push_neg at hc
  refine h (Nat.eq_of_testBit_eq fun i => ?_)
  rw [Nat.zero_testBit]
  simpa using hc i

theorem totalmask_clearVoiceIrqAt (s : GusState) :
    totalmask (clearVoiceIrqAt s) =
      totalmask s &&& (0xffffffff ^^^ 1 <<< s.g.IRQChan) := by
  apply Nat.eq_of_testBit_eq
  intro j
  simp only [totalmask, clearVoiceIrqAt, Nat.testBit_and, Nat.testBit_or]
  cases s.g.RampIRQ.testBit j <;> cases s.g.WaveIRQ.testBit j <;>
    cases s.g.ActiveMask.testBit j <;>
    cases (0xffffffff ^^^ 1 <<< s.g.IRQChan).testBit j <;> rfl

theorem CheckVoiceIrq_RampIRQ (s : GusState) :
    (CheckVoiceIrq s).g.RampIRQ = s.g.RampIRQ := by
  simp only [CheckVoiceIrq]
  split_ifs <;> rfl

theorem CheckVoiceIrq_WaveIRQ (s : GusState) :
    (CheckVoiceIrq s).g.WaveIRQ = s.g.WaveIRQ := by
  simp only [CheckVoiceIrq]
  split_ifs <;> rfl

theorem CheckVoiceIrq_gRegSelect (s : GusState) :
    (CheckVoiceIrq s).g.gRegSelect = s.g.gRegSelect := by
  simp only [CheckVoiceIrq]
  split_ifs <;> rfl

theorem CheckVoiceIrq_ActiveMask_pre (s : GusState) :
    (CheckVoiceIrq s).g.ActiveMask = s.g.ActiveMask := by
  simp only [CheckVoiceIrq]
  split_ifs <;> rfl

theorem CheckVoiceIrq_ActiveChannels_pre (s : GusState) :
    (CheckVoiceIrq s).g.ActiveChannels = s.g.ActiveChannels := by
  simp only [CheckVoiceIrq]
  split_ifs <;> rfl

theorem totalmask_CheckVoiceIrq (s : GusState) :
    totalmask (CheckVoiceIrq s) = totalmask s := by
  simp only [totalmask, CheckVoiceIrq_RampIRQ, CheckVoiceIrq_WaveIRQ,
    CheckVoiceIrq_ActiveMask_pre]

theorem CheckVoiceIrq_of_total_zero (s : GusState) (h : totalmask s = 0) :
    (CheckVoiceIrq s).g.IRQStatus = s.g.IRQStatus &&& 0x9f ∧
    (CheckVoiceIrq s).g.IRQChan = s.g.IRQChan := by
  simp only [CheckVoiceIrq]
  rw [if_pos h]
  exact ⟨rfl, rfl⟩

theorem CheckVoiceIrq_IRQChan_of_ne (s : GusState) (h : ¬ totalmask s = 0) :
    (CheckVoiceIrq s).g.IRQChan =
      advanceChan (totalmask s) 128 s.g.IRQChan s.g.ActiveChannels := by
  simp only [CheckVoiceIrq]
  rw [if_neg h]
  split_ifs <;> rfl

theorem drainRead_eq (s : GusState) (hsel : s.g.gRegSelect = 0x8f) :
    drainRead s = CheckVoiceIrq (clearVoiceIrqAt s) := by
  simp [drainRead, ExecuteReadRegister, hsel]

theorem and9f_and60 (x : ℕ) : (x &&& 0x9f) &&& 0x60 = 0 := by
  have h : (0x9f &&& 0x60 : ℕ) = 0 := by decide
  rw [Nat.and_assoc, h, Nat.and_zero]

theorem km_testBit_self (c : ℕ) (hc : c < 32) :
    (0xffffffff ^^^ 1 <<< c).testBit c = false := by
  rw [Nat.testBit_xor]
  have h1 : (0xffffffff : ℕ).testBit c = true := by
    have he : (0xffffffff : ℕ) = 2 ^ 32 - 1 := by norm_num
    rw [he, Nat.testBit_two_pow_sub_one]
    simpa using hc
  have h2 : (1 <<< c).testBit c = true := by
    rw [Nat.shiftLeft_eq, one_mul, Nat.testBit_two_pow]
    simp
  rw [h1, h2]
  rfl

theorem and_clear_and_self (x c : ℕ) (hc : c < 32) :
    (x &&& (0xffffffff ^^^ 1 <<< c)) &&& (1 <<< c) = 0 := by
  apply Nat.eq_of_testBit_eq
  intro j
  rw [Nat.zero_testBit, Nat.testBit_and, Nat.testBit_and]
  by_cases hj : j = c
  · rw [hj, km_testBit_self c hc]
    simp
  · have h1 : (1 <<< c).testBit j = false := by
      rw [Nat.shiftLeft_eq, one_mul, Nat.testBit_two_pow]
      simp [Ne.symm hj]
    rw [h1]
    simp

theorem popcount32_le (t : ℕ) : popcount32 t ≤ 32 := by
  calc popcount32 t ≤ (Finset.range 32).card := Finset.card_filter_le _ _
  _ = 32 := by simp

theorem popcount32_and_le (t k : ℕ) : popcount32 (t &&& k) ≤ popcount32 t := by
  apply Finset.card_le_card
  intro j hj
  simp only [Finset.mem_filter] at hj ⊢
  refine ⟨hj.1, ?_⟩
  have h2 := hj.2
  rw [Nat.testBit_and, Bool.and_eq_true] at h2
  exact h2.1

theorem popcount32_clear_lt (t c : ℕ) (hc : c < 32) (hbit : t.testBit c = true) :
    popcount32 (t &&& (0xffffffff ^^^ 1 <<< c)) < popcount32 t := by
  apply Finset.card_lt_card
  constructor
  · intro j hj
    simp only [Finset.mem_filter] at hj ⊢
    refine ⟨hj.1, ?_⟩
    have h2 := hj.2
    rw [Nat.testBit_and, Bool.and_eq_true] at h2
    exact h2.1
  · intro hsub
    have hcmem : c ∈ (Finset.range 32).filter (fun j => t.testBit j) := by
      simp [Finset.mem_filter, Finset.mem_range, hc, hbit]
    have hmem := hsub hcmem
    simp only [Finset.mem_filter] at hmem
    have h2 := hmem.2
    rw [Nat.testBit_and, Bool.and_eq_true] at h2
    rw [km_testBit_self c hc] at h2
    exact Bool.false_ne_true h2.2

theorem eq_zero_of_popcount32 (t : ℕ) (hhi : ∀ j, 32 ≤ j → t.testBit j = false)
    (h : popcount32 t = 0) : t = 0 := by
  rw [popcount32, Finset.card_eq_zero, Finset.filter_eq_empty_iff] at h
  apply Nat.eq_of_testBit_eq
  intro j
  rw [Nat.zero_testBit]
  by_cases hj : j < 32
  · have := h (Finset.mem_range.mpr hj)
    simpa using this
  · exact hhi j (by omega)

theorem popcount32_zero : popcount32 0 = 0 := by
  simp [popcount32, Nat.zero_testBit]

theorem drainRead_props (s : GusState) (hWF : DrainWF s) :
    DrainWF (drainRead s) ∧
    totalmask (drainRead s) = totalmask s &&& (0xffffffff ^^^ 1 <<< s.g.IRQChan) ∧
    (totalmask (drainRead s) = 0 → (drainRead s).g.IRQStatus &&& 0x60 = 0) ∧
    (totalmask (drainRead s) ≠ 0 →
      (totalmask (drainRead s)).testBit (drainRead s).g.IRQChan = true) := by
  obtain ⟨hact, hM, hchan, hsel⟩ := hWF
  rw [drainRead_eq s hsel]
  have htmu : totalmask (clearVoiceIrqAt s) =
      totalmask s &&& (0xffffffff ^^^ 1 <<< s.g.IRQChan) := totalmask_clearVoiceIrqAt s
  have htm : totalmask (CheckVoiceIrq (clearVoiceIrqAt s)) =
      totalmask (clearVoiceIrqAt s) := totalmask_CheckVoiceIrq _
  have hu_act : (clearVoiceIrqAt s).g.ActiveChannels = s.g.ActiveChannels := rfl
  have hu_M : (clearVoiceIrqAt s).g.ActiveMask = s.g.ActiveMask := rfl
  have hu_sel : (clearVoiceIrqAt s).g.gRegSelect = s.g.gRegSelect := rfl
  have hu_chan : (clearVoiceIrqAt s).g.IRQChan = s.g.IRQChan := rfl
  by_cases hz : totalmask (clearVoiceIrqAt s) = 0
  · obtain ⟨hSt, hCh⟩ := CheckVoiceIrq_of_total_zero _ hz
    refine ⟨⟨?_, ?_, ?_, ?_⟩, ?_, ?_, ?_⟩
    · rw [CheckVoiceIrq_ActiveChannels_pre, hu_act]
      exact hact
    · rw [CheckVoiceIrq_ActiveMask_pre, CheckVoiceIrq_ActiveChannels_pre, hu_M, hu_act]
      exact hM
    · rw [hCh, hu_chan]
      exact hchan
    · rw [CheckVoiceIrq_gRegSelect, hu_sel]
      exact hsel
    · rw [htm, htmu]
    · intro _
      rw [hSt]
      exact and9f_and60 _
    · intro hne
      rw [htm] at hne
      exact absurd hz hne
  · have hCh := CheckVoiceIrq_IRQChan_of_ne _ hz
    have hMu : (clearVoiceIrqAt s).g.ActiveMask =
        2 ^ (clearVoiceIrqAt s).g.ActiveChannels - 1 := by
      rw [hu_M, hu_act]
      exact hM
    obtain ⟨j, hjbit⟩ := exists_testBit_of_ne_zero _ hz
    have hja : j < (clearVoiceIrqAt s).g.ActiveChannels :=
      totalmask_testBit_lt _ hMu j hjbit
    have hfind : (totalmask (clearVoiceIrqAt s)).testBit
        (advanceChan (totalmask (clearVoiceIrqAt s)) 128 (clearVoiceIrqAt s).g.IRQChan
          (clearVoiceIrqAt s).g.ActiveChannels) = true := by
      apply advanceChan_finds _ _ (by rw [hu_act]; exact hact) ⟨j, hja, hjbit⟩
      rw [hu_act]
      omega
    have hchanlt : (CheckVoiceIrq (clearVoiceIrqAt s)).g.IRQChan <
        (clearVoiceIrqAt s).g.ActiveChannels := by
      rw [hCh, hu_chan, ← hu_chan]
      exact totalmask_testBit_lt _ hMu _ hfind
    refine ⟨⟨?_, ?_, ?_, ?_⟩, ?_, ?_, ?_⟩
    · rw [CheckVoiceIrq_ActiveChannels_pre, hu_act]
      exact hact
    · rw [CheckVoiceIrq_ActiveMask_pre, CheckVoiceIrq_ActiveChannels_pre, hu_M, hu_act]
      exact hM
    · have := hchanlt
      rw [hu_act] at this
      omega
    · rw [CheckVoiceIrq_gRegSelect, hu_sel]
      exact hsel
    · rw [htm, htmu]
    · intro h0
      rw [htm] at h0
      exact absurd h0 hz
    · intro _
      rw [htm, hCh, hu_chan, ← hu_chan]
      exact hfind

theorem drain_loop (k : ℕ) : ∀ s : GusState, DrainWF s →
    (totalmask s = 0 → s.g.IRQStatus &&& 0x60 = 0) →
    (totalmask s ≠ 0 → (totalmask s).testBit s.g.IRQChan = true) →
    popcount32 (totalmask s) ≤ k →
    (drainRead^[k] s).g.IRQStatus &&& 0x60 = 0 := by
  induction k with
  | zero =>
    intro s hWF h0 _ hpc
    have hz : totalmask s = 0 :=
      eq_zero_of_popcount32 _ (totalmask_testBit_hi s hWF.2.1 hWF.1) (by omega)
    simpa using h0 hz
  | succ k ih =>
    intro s hWF h0 hne hpc
    rw [Function.iterate_succ_apply]
    obtain ⟨hWF1, htm1, h01, hne1⟩ := drainRead_props s hWF
    apply ih (drainRead s) hWF1 h01 hne1
    by_cases hz : totalmask s = 0
    · rw [htm1, hz, Nat.zero_and, popcount32_zero]
      omega
    · have hlt : popcount32 (totalmask (drainRead s)) < popcount32 (totalmask s) := by
        rw [htm1]
        exact popcount32_clear_lt _ _ hWF.2.2.1 (hne hz)
      omega

theorem drain_first_bound (s : GusState) (hWF : DrainWF s) :
    popcount32 (totalmask (drainRead s)) ≤ 31 := by
  obtain ⟨_, htm1, _, _⟩ := drainRead_props s hWF
  by_cases hbit : (totalmask s).testBit s.g.IRQChan = true
  · have hlt := popcount32_clear_lt (totalmask s) s.g.IRQChan hWF.2.2.1 hbit
    have h32 := popcount32_le (totalmask s)
    rw [htm1]
    omega
  · have hle : popcount32 (totalmask s) ≤ 31 := by
      by_contra hgt
      push_neg at hgt
      have h32 := popcount32_le (totalmask s)
      have heq : popcount32 (totalmask s) = 32 := by omega
      have hsub : (Finset.range 32).filter (fun j => (totalmask s).testBit j) =
          Finset.range 32 := by
        apply Finset.eq_of_subset_of_card_le (Finset.filter_subset _ _)
        rw [Finset.card_range]
        rw [popcount32] at heq
        omega
      have hmem : s.g.IRQChan ∈ Finset.range 32 := Finset.mem_range.mpr hWF.2.2.1
      rw [← hsub] at hmem
      simp only [Finset.mem_filter] at hmem
      exact hbit hmem.2
    have hmono := popcount32_and_le (totalmask s) (0xffffffff ^^^ 1 <<< s.g.IRQChan)
    rw [htm1]
    omega

/-- C8: with register 0x8F selected (and a sane active-channel mask and
cursor), each data-port read clears `WaveIRQ` and `RampIRQ` at index
`IRQChan` and re-evaluates the aggregator, and after 32 such reads (no
new voice IRQs being raised in between) `IRQStatus` has bits 5 and 6
clear. -/
theorem C8_irq_drain (s : GusState) (hWF : DrainWF s) :
    ((drainRead s).g.WaveIRQ &&& (1 <<< s.g.IRQChan) = 0 ∧
     (drainRead s).g.RampIRQ &&& (1 <<< s.g.IRQChan) = 0) ∧
    (drainRead^[32] s).g.IRQStatus &&& 0x60 = 0 := by
  constructor
  · rw [drainRead_eq s hWF.2.2.2, CheckVoiceIrq_WaveIRQ, CheckVoiceIrq_RampIRQ]
    exact ⟨and_clear_and_self _ _ hWF.2.2.1, and_clear_and_self _ _ hWF.2.2.1⟩
  · obtain ⟨hWF1, _, h01, hne1⟩ := drainRead_props s hWF
    have hb := drain_first_bound s hWF
    have hstep : drainRead^[32] s = drainRead^[31] (drainRead s) :=
      Function.iterate_succ_apply drainRead 31 s
    rw [hstep]
    exact drain_loop 31 (drainRead s) hWF1 h01 hne1 hb

set_option maxRecDepth 8000 in
theorem C8_irq_drain_witness :
    DrainWF (write_gus 0x303 0x8f 1 (initState 3 5)) ∧
    (((drainRead (write_gus 0x303 0x8f 1 (initState 3 5))).g.WaveIRQ &&&
        (1 <<< (write_gus 0x303 0x8f 1 (initState 3 5)).g.IRQChan) = 0 ∧
      (drainRead (write_gus 0x303 0x8f 1 (initState 3 5))).g.RampIRQ &&&
        (1 <<< (write_gus 0x303 0x8f 1 (initState 3 5)).g.IRQChan) = 0) ∧
     (drainRead^[32] (write_gus 0x303 0x8f 1 (initState 3 5))).g.IRQStatus &&& 0x60 = 0) :=
  ⟨⟨by decide, by decide, by decide, by decide⟩,
   C8_irq_drain (write_gus 0x303 0x8f 1 (initState 3 5))
     ⟨by decide, by decide, by decide, by decide⟩⟩

end Gus
